import Mathlib

/-!
Shallow embedding of the BioEvolve simulation engine (src/main.py) in Lean 4,
used to settle the frozen claims C1-C10 about its specification.

Conventions of the embedding:
* Python floats are modelled as rationals (`ℚ`); all arithmetic is exact.
* Python's ambient `random` module is modelled by explicit draw parameters:
  every value the source draws (a `random.random()` in [0,1), a Gaussian, a
  `randint`, a choice index) appears as an input of the Lean function, so
  theorems quantify over every outcome of the randomness.
* Python dicts keyed by strings are modelled as association lists
  (`List (String × _)`) with Python-dict insert semantics (`setKey`):
  overwriting keeps the position of an existing key, a new key is appended.
* Attributes that are never assigned anywhere in the source resolve every
  `hasattr` test to `False`; the corresponding dead branches are dropped and
  noted in the doc comment of the translated function.
-/

namespace BioEvolve

/-- Python `max(lo, min(hi, x))`, the clamp idiom used throughout the source. -/
def clamp (lo hi x : ℚ) : ℚ := max lo (min hi x)

/-- Python `int(x)`: truncation toward zero. -/
def pyInt (q : ℚ) : ℤ := if 0 ≤ q then ⌊q⌋ else ⌈q⌉

/-- Python `random.randint(a, b)` (both bounds inclusive) realised from a raw
natural draw `r`. -/
def pyRandint (a b r : ℕ) : ℕ := a + r % (b - a + 1)

/-! ## Gene (src/main.py lines 556-655) -/

/-- `Gene`: id, value in [0,1], mutation rate, dominance, epistasis map,
pleiotropy list, expression level (src/main.py lines 556-565). -/
structure Gene where
  gene_id : String
  value : ℚ
  mutation_rate : ℚ
  dominance : ℚ
  epistasis : List (String × ℚ)
  pleiotropy : List (String × ℚ)
  expression_level : ℚ
  deriving Repr, DecidableEq, Inhabited

/-- `Gene.__init__(gene_id, value, mutation_rate)`: the constructor draws
`dominance` and `expression_level` from `random.random()` and starts with
empty epistasis and pleiotropy (src/main.py lines 558-565).  The two draws
are the explicit arguments `dDraw` and `eDraw`. -/
def Gene.init (gene_id : String) (value mutation_rate : ℚ) (dDraw eDraw : ℚ) : Gene :=
  { gene_id := gene_id
    value := value
    mutation_rate := mutation_rate
    dominance := dDraw
    epistasis := []
    pleiotropy := []
    expression_level := eDraw }

/-- The six mutation kinds of `Gene.mutate` (src/main.py lines 579-586). -/
inductive MutKind where
  | point
  | regulatory
  | dominance
  | epistatic
  | pleiotropic
  | meta
  deriving Repr, DecidableEq, Inhabited

/-- All random draws consumed by one call of `Gene.mutate`.
`u` is the `random.random()` of the Bernoulli test at line 577; `kinds` is the
result of the `random.choices`/`random.sample` selection at lines 589-590
(one to three distinct kinds); the remaining fields are the draws each branch
may consume.  Gaussian draws are modelled as arbitrary rationals. -/
structure GeneMutDraws where
  u : ℚ
  kinds : List MutKind
  pointDelta : ℚ
  regDelta : ℚ
  domDelta : ℚ
  epiCoin : ℚ
  epiIdx : ℕ
  epiDelta : ℚ
  epiNewTarget : String
  epiNewCoeff : ℚ
  pleioCoin : ℚ
  pleioIdx : ℕ
  pleioDelta : ℚ
  pleioNewTrait : String
  pleioNewStrength : ℚ
  metaDelta : ℚ
  metaCoin : ℚ
  deriving Repr, Inhabited

/-- Association-list update with Python-dict semantics: an existing key keeps
its position, a missing key is appended at the end. -/
def setKey {β : Type} (l : List (String × β)) (k : String) (v : β) : List (String × β) :=
  match l with
  | [] => [(k, v)]
  | (k', v') :: t => if k' = k then (k, v) :: t else (k', v') :: setKey t k v

/-- Association-list lookup (Python `d.get(k, default)` / `d[k]`). -/
def getKey? {β : Type} (l : List (String × β)) (k : String) : Option β :=
  match l with
  | [] => none
  | (k', v') :: t => if k' = k then some v' else getKey? t k

/-- Apply one selected mutation kind inside the mutation branch of
`Gene.mutate` (src/main.py lines 593-650).  `g` is the original gene (the
source reads `self.*`), `acc` is the new gene accumulated so far
(`new_gene`). -/
def Gene.applyMutKind (g : Gene) (d : GeneMutDraws) (acc : Gene) : MutKind → Gene
  | .point =>
      -- lines 594-601: value ← clamp(self.value + δ, 0, 1)
      { acc with value := clamp 0 1 (g.value + d.pointDelta) }
  | .regulatory =>
      -- lines 603-606
      { acc with expression_level := clamp 0 1 (g.expression_level + d.regDelta) }
  | .dominance =>
      -- lines 608-611
      { acc with dominance := clamp 0 1 (g.dominance + d.domDelta) }
  | .epistatic =>
      -- lines 613-623
      if d.epiCoin < 1/2 ∧ g.epistasis ≠ [] then
        -- perturb an existing interaction, chosen by `random.choice`
        match g.epistasis.get? (d.epiIdx % g.epistasis.length) with
        | some (target, coeff) =>
            { acc with epistasis := setKey acc.epistasis target (clamp (-1) 1 (coeff + d.epiDelta)) }
        | none => acc
      else
        -- add a new random interaction
        { acc with epistasis := setKey acc.epistasis d.epiNewTarget d.epiNewCoeff }
  | .pleiotropic =>
      -- lines 625-639
      if d.pleioCoin < 1/2 ∧ g.pleiotropy ≠ [] then
        match g.pleiotropy.get? (d.pleioIdx % g.pleiotropy.length) with
        | some (trait, strength) =>
            let entry := (trait, clamp (-1) 1 (strength + d.pleioDelta))
            { acc with pleiotropy := acc.pleiotropy.set (d.pleioIdx % g.pleiotropy.length) entry }
        | none => acc
      else
        { acc with pleiotropy := acc.pleiotropy ++ [(d.pleioNewTrait, d.pleioNewStrength)] }
  | .meta =>
      -- lines 641-650: mutation of the mutation rate itself, with the bias
      -- that pushes rates above 0.1 downward 80% of the time
      let metaChange :=
        if acc.mutation_rate + d.metaDelta > 1/10 ∧ d.metaCoin < 8/10 then
          -|d.metaDelta|
        else
          d.metaDelta
      { acc with mutation_rate := clamp (1/10000) (2/10) (g.mutation_rate + metaChange) }

/-- `Gene.mutate()` (src/main.py lines 567-655): returns a fresh gene; with
probability `mutation_rate` applies the selected mutation kinds, otherwise
returns an exact copy.  The `Gene(...)` constructor draws for dominance and
expression are irrelevant because lines 571-574 overwrite all four copied
fields, so the copy is built directly from `g`'s fields. -/
def Gene.mutate (g : Gene) (d : GeneMutDraws) : Gene :=
  let copy : Gene :=
    { gene_id := g.gene_id
      value := g.value
      mutation_rate := g.mutation_rate
      dominance := g.dominance
      epistasis := g.epistasis
      pleiotropy := g.pleiotropy
      expression_level := g.expression_level }
  if d.u < g.mutation_rate then
    d.kinds.foldl (fun acc k => Gene.applyMutKind g d acc k) copy
  else
    copy

/-! ## Chromosome (src/main.py lines 657-691) -/

/-- `Chromosome`: a dict gene-id → Gene, modelled as an association list in
insertion order (src/main.py lines 657-660). -/
structure Chromosome where
  genes : List (String × Gene)
  deriving Repr, DecidableEq, Inhabited

/-- `Chromosome.add_gene` keys the entry by the gene's own `gene_id`
(src/main.py lines 662-664). -/
def Chromosome.addGene (c : Chromosome) (g : Gene) : Chromosome :=
  ⟨setKey c.genes g.gene_id g⟩

/-- `Chromosome.mutate()` (src/main.py lines 666-671): every gene is mutated
independently; `ds` supplies the draws of the `i`-th gene in dict order. -/
def Chromosome.mutate (c : Chromosome) (ds : ℕ → GeneMutDraws) : Chromosome :=
  (c.genes.enum.foldl (fun acc p => acc.addGene (p.2.2.mutate (ds p.1))) ⟨[]⟩)

/-- Keys of a chromosome, in dict order. -/
def Chromosome.keys (c : Chromosome) : List String := c.genes.map Prod.fst

/-- The union of gene ids iterated by `Chromosome.combine`
(src/main.py line 677); the Python set order is unspecified, the embedding
fixes first-chromosome keys first. -/
def unionKeys (k1 k2 : List String) : List String := (k1 ++ k2).dedup

/-- `Chromosome.combine(c1, c2)` (src/main.py lines 673-691): uniform
crossover per gene id.  `coin id` is the `random.random()` of line 682 for a
shared id, `ds id` the mutation draws for whichever copy is taken. -/
def Chromosome.combine (c1 c2 : Chromosome) (coin : String → ℚ) (ds : String → GeneMutDraws) :
    Chromosome :=
  (unionKeys c1.keys c2.keys).foldl
    (fun acc id =>
      match getKey? c1.genes id, getKey? c2.genes id with
      | some g1, some g2 =>
          if coin id < 1/2 then acc.addGene (g1.mutate (ds id)) else acc.addGene (g2.mutate (ds id))
      | some g1, none => acc.addGene (g1.mutate (ds id))
      | none, some g2 => acc.addGene (g2.mutate (ds id))
      | none, none => acc)
    ⟨[]⟩

/-! ## Genome (src/main.py lines 693-901) -/

/-- `Genome`: an ordered list of chromosomes (src/main.py lines 693-700). -/
structure Genome where
  chromosomes : List Chromosome
  deriving Repr, DecidableEq, Inhabited

/-- `Genome.get_gene_value(gene_id)` (src/main.py lines 702-726): the
dominance-weighted average over all copies of the gene; `0.5` if absent,
plain average if all dominances sum to zero. -/
def Genome.getGeneValue (g : Genome) (id : String) : ℚ :=
  let copies := g.chromosomes.flatMap (fun c =>
    c.genes.filterMap (fun p => if p.1 = id then some p.2 else none))
  match copies with
  | [] => 1/2
  | [x] => x.value
  | _ =>
      let totalDominance := (copies.map Gene.dominance).sum
      if totalDominance = 0 then
        (copies.map Gene.value).sum / copies.length
      else
        (copies.map (fun x => x.value * x.dominance)).sum / totalDominance

/-- `Genome.mutate()` (src/main.py lines 773-778). -/
def Genome.mutate (g : Genome) (ds : ℕ → ℕ → GeneMutDraws) : Genome :=
  ⟨(g.chromosomes.enum.map (fun p => p.2.mutate (ds p.1)))⟩

/-! ## Genome.reproduce (src/main.py lines 780-901) -/

/-- The three chromosomal anomaly kinds of line 848. -/
inductive AnomalyKind where
  | translocation
  | inversion
  | fusion
  deriving Repr, DecidableEq, Inhabited

/-- `random.sample(l, n)`: n distinct elements drawn without replacement,
modelled by removing a drawn index from the remaining pool at each step. -/
def pySample {α : Type} (l : List α) : ℕ → (ℕ → ℕ) → List α
  | 0, _ => []
  | n + 1, draw =>
      if l.isEmpty then []
      else
        let i := draw 0 % l.length
        match l.get? i with
        | some x => x :: pySample (l.eraseIdx i) n (fun k => draw (k + 1))
        | none => []

/-- Two distinct indices below `n`, as drawn by `random.sample(range(n), 2)`
(src/main.py line 845). -/
def pySamplePair (n a b : ℕ) : ℕ × ℕ :=
  let i := a % n
  let j := b % (n - 1)
  (i, if j ≥ i then j + 1 else j)

/-- All random draws consumed by one call of `Genome.reproduce`. -/
structure ReproDraws where
  anomalyU : ℚ
  dupU : ℚ
  delU : ℚ
  delIdxDraw : ℕ → ℕ
  dupIdxDraw : ℕ → ℕ
  combineCoin : ℕ → String → ℚ
  combineMut : ℕ → String → GeneMutDraws
  dupMut : ℕ → GeneMutDraws
  extraU : ℕ → ℚ
  extraExpr : ℕ → ℕ → ℚ
  extraMut : ℕ → ℕ → GeneMutDraws
  anoIdxA : ℕ
  anoIdxB : ℕ
  anoKind : AnomalyKind
  transCountDraw : ℕ
  transSel1 : ℕ → ℕ
  transSel2 : ℕ → ℕ
  invSizeDraw : ℕ
  invStartDraw : ℕ
  deriving Inhabited

/-- Simultaneous swap of the values of key `k1` in `l1` and key `k2` in `l2`,
the Python `d1[k1], d2[k2] = d2[k2], d1[k1]` of lines 866-867 and 882. -/
def swapAcross (l1 : List (String × Gene)) (k1 : String) (l2 : List (String × Gene))
    (k2 : String) : List (String × Gene) × List (String × Gene) :=
  match getKey? l1 k1, getKey? l2 k2 with
  | some g1, some g2 => (setKey l1 k1 g2, setKey l2 k2 g1)
  | _, _ => (l1, l2)

/-- Swap of the values of two keys inside one dict (line 882, where both keys
live in the same chromosome). -/
def swapWithin (l : List (String × Gene)) (k1 k2 : String) : List (String × Gene) :=
  match getKey? l k1, getKey? l k2 with
  | some g1, some g2 => setKey (setKey l k1 g2) k2 g1
  | _, _ => l

/-- The translocation anomaly (src/main.py lines 850-867): swap 1-3 randomly
sampled gene entries between the chromosomes at `idx1` and `idx2`. -/
def applyTranslocation (cs : List Chromosome) (idx1 idx2 : ℕ) (d : ReproDraws) :
    List Chromosome :=
  match cs.get? idx1, cs.get? idx2 with
  | some c1, some c2 =>
      if c1.genes ≠ [] ∧ c2.genes ≠ [] then
        let genes1 := c1.keys
        let genes2 := c2.keys
        let swapCount := min (min genes1.length genes2.length) (pyRandint 1 3 d.transCountDraw)
        let sel1 := pySample genes1 swapCount d.transSel1
        let sel2 := pySample genes2 swapCount d.transSel2
        let res := (sel1.zip sel2).foldl
          (fun (p : List (String × Gene) × List (String × Gene)) kk =>
            swapAcross p.1 kk.1 p.2 kk.2)
          (c1.genes, c2.genes)
        (cs.set idx1 ⟨res.1⟩).set idx2 ⟨res.2⟩
      else cs
  | _, _ => cs

/-- The inversion anomaly (src/main.py lines 869-882): reverse a 2-5 gene
segment of the chromosome at `idx1` by pairwise value swaps.  (As in the
source, swapping every pair of the segment with its mirror swaps each pair
twice, so the net effect is the identity.) -/
def applyInversion (cs : List Chromosome) (idx1 : ℕ) (d : ReproDraws) : List Chromosome :=
  match cs.get? idx1 with
  | some c =>
      if c.genes.length ≥ 3 then
        let genes := c.keys
        let segmentSize := pyRandint 2 (min genes.length 5) d.invSizeDraw
        let start := pyRandint 0 (genes.length - segmentSize) d.invStartDraw
        let segment := (genes.drop start).take segmentSize
        let inverted := segment.reverse
        let res := (segment.zip inverted).foldl
          (fun l kk => swapWithin l kk.1 kk.2) c.genes
        cs.set idx1 ⟨res⟩
      else cs
  | none => cs

/-- The fusion anomaly (src/main.py lines 884-899): merge the chromosomes at
`idx1` and `idx2` (union of genes, first chromosome's entries first), dropping
the second one.  Only applies when more than two chromosomes remain. -/
def applyFusion (cs : List Chromosome) (idx1 idx2 : ℕ) : List Chromosome :=
  if cs.length > 2 then
    match cs.get? idx1, cs.get? idx2 with
    | some c1, some c2 =>
        let fused1 := c1.genes.foldl (fun (acc : Chromosome) p => acc.addGene p.2) ⟨[]⟩
        let fused := c2.genes.foldl
          (fun (acc : Chromosome) p =>
            if getKey? acc.genes p.1 = none then acc.addGene p.2 else acc)
          fused1
        (cs.set idx1 fused).eraseIdx idx2
    | _, _ => cs
  else cs

/-- The extra-chromosome handling of `Genome.reproduce` for the longer parent
(src/main.py lines 816-840): each extra chromosome mutates, with probability
0.2 after rebuilding every gene with a doubled mutation rate.  The rebuilt
`Gene(gene_id, value, rate*2)` keeps the old dominance (overwritten at line
824/836) but loses epistasis and pleiotropy and draws a fresh expression
level (`d.extraExpr`); its fresh dominance draw is immediately overwritten,
so it does not appear. -/
def reproduceExtra (c : Chromosome) (i : ℕ) (d : ReproDraws) : Chromosome :=
  if d.extraU i < 2/10 then
    let temp : Chromosome := c.genes.enum.foldl
      (fun (acc : Chromosome) p =>
        let g := p.2.2
        let rebuilt : Gene :=
          { Gene.init p.2.1 g.value (g.mutation_rate * 2) 0 (d.extraExpr i p.1) with
              dominance := g.dominance }
        acc.addGene rebuilt)
      ⟨[]⟩
    temp.mutate (d.extraMut i)
  else
    c.mutate (d.extraMut i)

/-- `Genome.reproduce(genome1, genome2)` (src/main.py lines 780-901):
per-index crossover over the shorter parent with rare deletion/duplication of
a drawn chromosome, mutation of the longer parent's extra chromosomes, then
the rare chromosomal anomalies. -/
def Genome.reproduce (genome1 genome2 : Genome) (d : ReproDraws) : Genome :=
  let minChromosomes := min genome1.chromosomes.length genome2.chromosomes.length
  let chromosomalAnomaly := d.anomalyU < 2/100
  let chromosomeDuplication := d.dupU < 5/1000
  let chromosomeDeletion := d.delU < 5/1000 ∧ minChromosomes > 1
  -- crossover loop over the shorter parent (lines 798-813)
  let afterMain : List Chromosome :=
    (List.range minChromosomes).foldl
      (fun acc i =>
        if chromosomeDeletion ∧ i = pyRandint 0 (minChromosomes - 1) (d.delIdxDraw i) then
          acc
        else
          match genome1.chromosomes.get? i, genome2.chromosomes.get? i with
          | some c1, some c2 =>
              let newChromosome := Chromosome.combine c1 c2 (d.combineCoin i) (d.combineMut i)
              if chromosomeDuplication ∧ i = pyRandint 0 (minChromosomes - 1) (d.dupIdxDraw i) then
                acc ++ [newChromosome, newChromosome.mutate d.dupMut]
              else
                acc ++ [newChromosome]
          | _, _ => acc)
      []
  -- extra chromosomes of the longer parent (lines 816-840)
  let longer :=
    if genome1.chromosomes.length > minChromosomes then genome1.chromosomes
    else genome2.chromosomes
  let afterExtra :=
    afterMain ++ ((longer.drop minChromosomes).enum.map
      (fun p => reproduceExtra p.2 (minChromosomes + p.1) d))
  -- rare chromosomal anomalies (lines 843-899)
  let final :=
    if chromosomalAnomaly ∧ afterExtra.length ≥ 2 then
      let p := pySamplePair afterExtra.length d.anoIdxA d.anoIdxB
      match d.anoKind with
      | .translocation => applyTranslocation afterExtra p.1 p.2 d
      | .inversion => applyInversion afterExtra p.1 d
      | .fusion => applyFusion afterExtra p.1 p.2
    else afterExtra
  ⟨final⟩

/-! ## Phenotype (src/main.py lines 903-1077) -/

/-- First gene object found for a gene id, scanning chromosomes in order
(src/main.py lines 978-982). -/
def Genome.findGeneObj (g : Genome) (id : String) : Option Gene :=
  (g.chromosomes.filterMap (fun c => getKey? c.genes id)).head?

/-- `Phenotype._calculate_trait` (src/main.py lines 953-958). -/
def calcTrait (g : Genome) (id : String) (lo hi : ℚ) (inverse : Bool := false) : ℚ :=
  let v := g.getGeneValue id
  let v := if inverse then 1 - v else v
  lo + v * (hi - lo)

/-- The per-gene data row collected by `_calculate_trait_from_combination`
(src/main.py lines 972-1003). -/
structure GeneData where
  id : String
  value : ℚ
  weight : ℚ
  expression : ℚ
  epistasis : List (String × ℚ)
  pleiotropy : List (String × ℚ)

/-- `Phenotype._calculate_trait_from_combination` (src/main.py lines
960-1044): weighted expression-modulated sum of several gene values, with
epistasis clamped to [-0.3, 0.3] and pleiotropy clamped to [-0.2, 0.2],
normalised to [0,1] and rescaled to [lo, hi]. -/
def calcTraitCombo (g : Genome) (ids : List String) (weights : List ℚ) (lo hi : ℚ) : ℚ :=
  let totalWeight := weights.sum
  let pairs :=
    if totalWeight ≤ 0 then ids.map (fun id => (id, (1 : ℚ) / ids.length))
    else (ids.zip weights).map (fun p => (p.1, p.2 / totalWeight))
  let geneData : List GeneData := pairs.map (fun p =>
    let value := g.getGeneValue p.1
    match g.findGeneObj p.1 with
    | some obj =>
        { id := p.1, value := value, weight := p.2, expression := obj.expression_level
          epistasis := obj.epistasis, pleiotropy := obj.pleiotropy }
    | none =>
        { id := p.1, value := value, weight := p.2, expression := 1
          epistasis := [], pleiotropy := [] })
  let combined := (geneData.map (fun gd => gd.value * gd.expression * gd.weight)).sum
  let epistaticRaw := (geneData.map (fun gd =>
    (gd.epistasis.map (fun te =>
      match geneData.find? (fun tg => tg.id = te.1) with
      | some tg => gd.value * tg.value * te.2
      | none => 0)).sum)).sum
  let epistaticModifier := clamp (-(3/10)) (3/10) epistaticRaw
  let pleiotropicRaw := (geneData.map (fun gd =>
    (gd.pleiotropy.map (fun te =>
      if ids.any (fun id => id.startsWith te.1) then gd.value * te.2 else 0)).sum)).sum
  let pleiotropicModifier := clamp (-(2/10)) (2/10) pleiotropicRaw
  let final := clamp 0 1 (combined + epistaticModifier + pleiotropicModifier)
  lo + final * (hi - lo)

/-- The derived traits of `Phenotype` (src/main.py lines 903-951). -/
structure Phenotype where
  metabolism_rate : ℚ
  energy_capacity : ℚ
  waste_tolerance : ℚ
  max_speed : ℚ
  agility : ℚ
  strength : ℚ
  vision_range : ℚ
  hearing_range : ℚ
  smell_sensitivity : ℚ
  fertility : ℚ
  maturation_time : ℚ
  max_offspring : ℤ
  immune_strength : ℚ
  toxin_resistance : ℚ
  attack_power : ℚ
  defense_power : ℚ
  learning_rate : ℚ
  memory_capacity : ℚ
  problem_solving : ℚ
  temperature_range : ℚ
  pressure_tolerance : ℚ
  radiation_resistance : ℚ
  size : ℚ
  color : ℤ × ℤ × ℤ
  lifespan : ℚ
  aggression : ℚ
  sociability : ℚ
  deriving DecidableEq, Inhabited

/-- `Phenotype._calculate_size` (src/main.py lines 1046-1055). -/
def calcSize (g : Genome) : ℚ :=
  calcTraitCombo g ["energy_storage", "strength"] [6/10, 4/10] (1/10) 3

/-- `Phenotype._calculate_color` (src/main.py lines 1057-1063). -/
def calcColor (g : Genome) : ℤ × ℤ × ℤ :=
  (max 0 (min 255 (pyInt (255 * g.getGeneValue "gene_0_0"))),
   max 0 (min 255 (pyInt (255 * g.getGeneValue "gene_0_1"))),
   max 0 (min 255 (pyInt (255 * g.getGeneValue "gene_0_2"))))

/-- `Phenotype._calculate_lifespan` (src/main.py lines 1065-1077), which
reads the already-computed size and metabolism rate. -/
def calcLifespan (g : Genome) (size metabolismRate : ℚ) : ℚ :=
  let base := calcTraitCombo g ["metabolism_efficiency", "immune_system", "waste_processing"]
    [4/10, 4/10, 2/10] 50 1000
  let sizeFactor := 1 - (size - 1/10) / (29/10) * (3/10)
  let metabolismFactor := 1 - (metabolismRate - 3/10) / (17/10) * (2/10)
  base * sizeFactor * metabolismFactor

/-- `Phenotype.__init__(genome)` (src/main.py lines 905-951): the full trait
derivation.  The body performs no random draw. -/
def Phenotype.ofGenome (g : Genome) : Phenotype :=
  let metabolism_rate := calcTrait g "metabolism_efficiency" (3/10) 2
  let size := calcSize g
  { metabolism_rate := metabolism_rate
    energy_capacity := calcTrait g "energy_storage" 50 500
    waste_tolerance := calcTrait g "waste_processing" (2/10) (8/10)
    max_speed := calcTrait g "speed" 0 10
    agility := calcTrait g "agility" 0 1
    strength := calcTrait g "strength" (1/10) 2
    vision_range := calcTrait g "vision" 0 50
    hearing_range := calcTrait g "hearing" 0 40
    smell_sensitivity := calcTrait g "smell" 0 1
    fertility := calcTrait g "fertility" 0 1
    maturation_time := calcTrait g "maturation_rate" 10 100 true
    max_offspring := ⌈calcTrait g "offspring_count" 1 20⌉
    immune_strength := calcTrait g "immune_system" 0 1
    toxin_resistance := calcTrait g "toxin_resistance" 0 1
    attack_power := calcTrait g "offense" 0 10
    defense_power := calcTrait g "defense" 0 10
    learning_rate := calcTrait g "learning_capacity" 0 1
    memory_capacity := calcTrait g "memory" 0 1
    problem_solving := calcTrait g "problem_solving" 0 1
    temperature_range := calcTrait g "temperature_tolerance" 10 50
    pressure_tolerance := calcTrait g "pressure_tolerance" 1 10
    radiation_resistance := calcTrait g "radiation_tolerance" 0 1
    size := size
    color := calcColor g
    lifespan := calcLifespan g size metabolism_rate
    aggression := calcTraitCombo g ["offense", "strength"] [7/10, 3/10] 0 1
    sociability := calcTraitCombo g ["problem_solving", "learning_capacity"] [5/10, 5/10] 0 1 }

/-- The ambient `random` module state, as a stream of future draws. -/
def Rng : Type := ℕ → ℚ

/-- The `Phenotype` constructor as a state function over the ambient RNG:
its body (src/main.py lines 905-951) contains no call into `random`, so it
returns the stream untouched.  This is the form in which claim C8 is
stated. -/
def Phenotype.make (g : Genome) (rng : Rng) : Phenotype × Rng :=
  (Phenotype.ofGenome g, rng)

/-! ## Enumerations (src/main.py lines 149-183) -/

/-- `BiomeType` (src/main.py lines 149-168). -/
inductive BiomeType where
  | OCEAN | DEEP_OCEAN | SHALLOW_WATER | CORAL_REEF | BEACH | GRASSLAND | SAVANNA
  | FOREST | RAINFOREST | SWAMP | MOUNTAIN | MOUNTAIN_FOREST | DESERT | DESERT_HILLS
  | TUNDRA | ICE | VOLCANIC | RIVER | LAKE
  deriving Repr, DecidableEq, Inhabited

/-- `ResourceType` (src/main.py lines 170-176), in declaration order. -/
inductive ResourceType where
  | SUNLIGHT | WATER | MINERALS | OXYGEN | CO2 | ORGANIC_MATTER
  deriving Repr, DecidableEq, Inhabited

/-- `OrganismType` (src/main.py lines 178-183). -/
inductive OrganismType where
  | UNICELLULAR | PLANT | HERBIVORE | CARNIVORE | OMNIVORE
  deriving Repr, DecidableEq, Inhabited

/-! ## WorldCell (src/main.py lines 3614-3892) -/

/-- The state of a `WorldCell` used by the claims: biome, climate scalars and
the resource/capacity/regeneration vectors (src/main.py lines 3614-3634). -/
structure Cell where
  biome_type : BiomeType
  temperature : ℚ
  altitude : ℚ
  resources : ResourceType → ℚ
  resource_capacity : ResourceType → ℚ
  resource_regen_rate : ResourceType → ℚ

/-- Pointwise update of a resource vector. -/
def setRes (f : ResourceType → ℚ) (r : ResourceType) (v : ℚ) : ResourceType → ℚ :=
  fun r' => if r' = r then v else f r'

/-- `cell.resources[r] = v`. -/
def Cell.setResource (c : Cell) (r : ResourceType) (v : ℚ) : Cell :=
  { c with resources := setRes c.resources r v }

/-- The per-resource diffusion rates of `_diffuse_resource`
(src/main.py lines 3838-3842); other resources diffuse at rate 0. -/
def diffusionRate : ResourceType → ℚ
  | .WATER => 5/1000
  | .OXYGEN => 1/100
  | .CO2 => 1/100
  | _ => 0

/-- `WorldCell._diffuse_resource(resource_type, neighboring_cells, delta_time)`
(src/main.py lines 3832-3873).  All flows are computed from the cell's state
before any flow is applied; then positive flows are applied in order, each
outflow capped by the cell's current amount and each inflow capped by the
receiving neighbour's capacity.  Returns the updated cell and neighbours. -/
def Cell.diffuseResource (c : Cell) (rt : ResourceType) (neighbors : List Cell) (dt : ℚ) :
    Cell × List Cell :=
  if neighbors.isEmpty then (c, neighbors)
  else
    let rate := diffusionRate rt * dt
    let flows : List ℚ := neighbors.map (fun n =>
      let diff := c.resources rt - n.resources rt
      let diff :=
        if rt = .WATER then
          let altitudeFactor := (c.altitude - n.altitude) * 2
          if altitudeFactor > 0 then diff + altitudeFactor * 20 else diff
        else diff
      diff * rate)
    let step := (neighbors.zip flows).foldl
      (fun (acc : Cell × List Cell) nf =>
        let cur := acc.1
        let done := acc.2
        let n := nf.1
        let flow := nf.2
        if flow > 0 then
          let actual := min flow (cur.resources rt)
          let cur := cur.setResource rt (cur.resources rt - actual)
          let n := n.setResource rt (min (n.resource_capacity rt) (n.resources rt + actual))
          (cur, done ++ [n])
        else (cur, done ++ [n]))
      (c, [])
    step

/-- Random draws consumed by one `WorldCell.update` call: the precipitation
Bernoulli (line 3730) and the `random.uniform(10, 20)` rain amount. -/
structure CellUpdateDraws where
  precipU : ℚ
  precipAmount : ℚ
  deriving Inhabited

/-- One resource step of the `for res_type in ResourceType` loop of
`WorldCell.update` (src/main.py lines 3712-3815). -/
def Cell.updateResource (dt : ℚ) (d : CellUpdateDraws) (acc : Cell × List Cell) :
    ResourceType → Cell × List Cell
  | .SUNLIGHT => acc
  | .WATER =>
      -- diffusion, then probabilistic precipitation (lines 3717-3734)
      let cns := (acc.1).diffuseResource .WATER acc.2 dt
      let c := cns.1
      let ns := cns.2
      let precipitationFactor : ℚ := (1/100)
        * (if c.altitude > 1/2 then 3/2 else 1)
        * (1 + (1/10) * (ns.countP (fun n =>
            n.biome_type = .OCEAN ∨ n.biome_type = .SHALLOW_WATER) : ℚ))
      if d.precipU < precipitationFactor * dt then
        (c.setResource .WATER (min (c.resource_capacity .WATER) (c.resources .WATER + d.precipAmount)), ns)
      else (c, ns)
  | .MINERALS =>
      -- slow regeneration (lines 3736-3743)
      let c := acc.1
      let ns := acc.2
      if c.resources .MINERALS < c.resource_capacity .MINERALS then
        let regen := c.resource_regen_rate .MINERALS * dt * (1/10)
        (c.setResource .MINERALS (min (c.resource_capacity .MINERALS) (c.resources .MINERALS + regen)), ns)
      else (c, ns)
  | .ORGANIC_MATTER =>
      -- growth from water, sunlight and CO2 (lines 3745-3796)
      let c := acc.1
      let ns := acc.2
      if c.resources .WATER > 5 ∧ c.resources .SUNLIGHT > 10 ∧ c.resources .CO2 > 5/100 then
        let growthFactor := (c.resources .WATER / 100) * (c.resources .SUNLIGHT / 100)
          * (c.resources .CO2 * 8) * dt
        let tempFactor : ℚ :=
          if c.temperature < -5 ∨ c.temperature > 45 then 3/10
          else if c.temperature < 5 ∨ c.temperature > 35 then 7/10
          else 1
        let biomeFactor : ℚ :=
          if c.biome_type = .FOREST ∨ c.biome_type = .RAINFOREST ∨
             c.biome_type = .GRASSLAND ∨ c.biome_type = .SWAMP then 3/2 else 1
        let growthAmount := max ((5/100) * dt) (growthFactor * tempFactor * biomeFactor * 3)
        let c := c.setResource .ORGANIC_MATTER
          (min (c.resource_capacity .ORGANIC_MATTER) (c.resources .ORGANIC_MATTER + growthAmount))
        let c := c.setResource .CO2 (max (1/10) (c.resources .CO2 - growthAmount * (1/10)))
        let c := c.setResource .OXYGEN (min 100 (c.resources .OXYGEN + growthAmount * (2/10)))
        (c, ns)
      else
        let c := c.setResource .ORGANIC_MATTER
          (min (c.resource_capacity .ORGANIC_MATTER) (c.resources .ORGANIC_MATTER + (2/100) * dt))
        (c, ns)
  | .OXYGEN =>
      -- diffusion then respiration into CO2 (lines 3798-3811)
      let cns := (acc.1).diffuseResource .OXYGEN acc.2 dt
      let c := cns.1
      let ns := cns.2
      let conversion := c.resources .OXYGEN * (1/1000) * dt
      let c := c.setResource .OXYGEN (max 0 (c.resources .OXYGEN - conversion))
      let c := c.setResource .CO2 (min 1 (c.resources .CO2 + conversion * (1/2)))
      (c, ns)
  | .CO2 =>
      (acc.1).diffuseResource .CO2 acc.2 dt

/-- `WorldCell.update(delta_time, neighboring_cells)` (src/main.py lines
3709-3830): the resource loop in enum declaration order, followed by
temperature-driven evaporation that donates 70% of the lost water to the
neighbours. -/
def Cell.update (c : Cell) (dt : ℚ) (neighbors : List Cell) (d : CellUpdateDraws) :
    Cell × List Cell :=
  let afterLoop :=
    [ResourceType.SUNLIGHT, .WATER, .MINERALS, .OXYGEN, .CO2, .ORGANIC_MATTER].foldl
      (fun acc rt => Cell.updateResource dt d acc rt) (c, neighbors)
  let c := afterLoop.1
  let ns := afterLoop.2
  if c.temperature > 25 ∧ c.resources .WATER > 0 then
    let evaporationRate := (c.temperature - 25) * (2/1000) * dt
    let waterLoss := min (c.resources .WATER) evaporationRate
    let c := c.setResource .WATER (c.resources .WATER - waterLoss)
    if ns.isEmpty then (c, ns)
    else
      let perNeighbor := waterLoss * (7/10) / ns.length
      let ns := ns.map (fun n =>
        n.setResource .WATER (min (n.resource_capacity .WATER) (n.resources .WATER + perNeighbor)))
      (c, ns)
  else (c, ns)

/-- `WorldCell.add_decomposition(biomass)` (src/main.py lines 3875-3892):
adds organic matter and minerals capped at their capacities, and CO2 capped
at the constant 1.0. -/
def Cell.addDecomposition (c : Cell) (biomass : ℚ) : Cell :=
  let c := c.setResource .ORGANIC_MATTER
    (min (c.resource_capacity .ORGANIC_MATTER) (c.resources .ORGANIC_MATTER + biomass * (5/10)))
  let c := c.setResource .MINERALS
    (min (c.resource_capacity .MINERALS) (c.resources .MINERALS + biomass * (2/10)))
  c.setResource .CO2 (min 1 (c.resources .CO2 + biomass * (1/10)))

/-! ## Organism state and lifecycle (src/main.py lines 1079-1304, 3148-3197, 3381-3395) -/

/-- The organism state touched by the claims (src/main.py lines 1090-1184).
Attributes that the source never assigns (`current_cell`, `current_biome`,
`world`, `nearby_organisms_count`, `experience`, ...) are omitted: every
`hasattr` test on them is `False`.  `self_pollination_count` is created on
first use (src/main.py lines 2379-2383), hence the `Option`. -/
structure Organism where
  id : String
  organism_type : OrganismType
  position : ℚ × ℚ
  velocity : ℚ × ℚ
  age : ℚ
  generation : ℕ
  parent_ids : List String
  species_id : String
  mutation_count : ℤ
  adaptation_score : ℚ
  species_population : ℕ
  geographic_isolation : ℚ
  evolutionary_pressures : List (String × ℚ)
  genome : Genome
  phenotype : Phenotype
  energy : ℚ
  health : ℚ
  hydration : ℚ
  waste : ℚ
  is_alive : Bool
  maturity : ℚ
  reproduction_cooldown : ℚ
  offspring_count : ℤ
  self_pollination_count : Option ℕ
  ready_to_mate : Bool

/-- `Organism._calculate_adaptation_score` (src/main.py lines 3148-3193). -/
def adaptationScore (t : OrganismType) (p : Phenotype) : ℚ :=
  let energyFactor := p.energy_capacity / 500
  let speedFactor := p.max_speed / 10
  let lifespanFactor := p.lifespan / 1000
  let typeSpecific : ℚ :=
    match t with
    | .UNICELLULAR => p.metabolism_rate * (5/10) + p.toxin_resistance * (5/10)
    | .PLANT => p.metabolism_rate * (3/10) + p.temperature_range * (4/10)
        + p.waste_tolerance * (3/10)
    | .HERBIVORE => speedFactor * (4/10) + p.vision_range / 50 * (3/10)
        + p.smell_sensitivity * (3/10)
    | .CARNIVORE => p.strength * (4/10) + p.attack_power / 10 * (4/10) + speedFactor * (2/10)
    | .OMNIVORE => p.problem_solving * (3/10) + p.temperature_range / 50 * (3/10)
        + p.metabolism_rate * (2/10) + speedFactor * (2/10)
  energyFactor * (2/10) + lifespanFactor * (2/10) + typeSpecific * (6/10)

/-- `Organism.__init__` for an offspring created by a reproduction path
(src/main.py lines 1090-1184): fresh physiology, phenotype derived from the
genome, initial energy at half capacity, and the initial adaptation score.
The generated `uuid` is the explicit argument `id`; the taxonomy and naming
machinery is not modelled (no claim touches it). -/
def Organism.init (id : String) (position : ℚ × ℚ) (genome : Genome)
    (organism_type : OrganismType) (generation : ℕ) (parent_ids : List String)
    (species_id : String) : Organism :=
  let phenotype := Phenotype.ofGenome genome
  { id := id
    organism_type := organism_type
    position := position
    velocity := (0, 0)
    age := 0
    generation := generation
    parent_ids := parent_ids
    species_id := species_id
    mutation_count := 0
    adaptation_score := adaptationScore organism_type phenotype
    species_population := 1
    geographic_isolation := 0
    evolutionary_pressures := []
    genome := genome
    phenotype := phenotype
    energy := phenotype.energy_capacity * (5/10)
    health := 100
    hydration := 100
    waste := 0
    is_alive := true
    maturity := 0
    reproduction_cooldown := 0
    offspring_count := 0
    self_pollination_count := none
    ready_to_mate := false }

/-- `Organism.interact_with_environment(world, delta_time)` (src/main.py
lines 1262-1304).  Photosynthesisers absorb sunlight and water and deposit
oxygen into the cell with no capacity cap (line 1284); herbivores graze
organic matter; every organism drinks available water. -/
def Organism.interactWithEnvironment (o : Organism) (cell? : Option Cell) (dt : ℚ) :
    Organism × Option Cell :=
  match cell? with
  | none => (o, none)
  | some cell =>
      let oc :=
        if o.organism_type = .UNICELLULAR ∨ o.organism_type = .PLANT then
          if cell.resources .SUNLIGHT > 0 ∧ cell.resources .WATER > 0 then
            let sunlightAbsorbed := min (dt * 2) (cell.resources .SUNLIGHT)
            let waterAbsorbed := min dt (cell.resources .WATER)
            let energyGained := sunlightAbsorbed * 5 * o.phenotype.metabolism_rate
            let o : Organism := { o with
              energy := min o.phenotype.energy_capacity (o.energy + energyGained),
              hydration := min 100 (o.hydration + waterAbsorbed * 10) }
            let cell : Cell := cell.setResource .SUNLIGHT (cell.resources .SUNLIGHT - sunlightAbsorbed)
            let cell : Cell := cell.setResource .WATER (cell.resources .WATER - waterAbsorbed)
            -- oxygen production for the ecosystem: no cap is applied here
            let cell : Cell := cell.setResource .OXYGEN (cell.resources .OXYGEN + energyGained * (2/10))
            (o, cell)
          else (o, cell)
        else if o.organism_type = .HERBIVORE then
          let plantEnergy := cell.resources .ORGANIC_MATTER * (5/10)
          if plantEnergy > 0 then
            let consumed := min (dt * 3 * o.phenotype.strength) plantEnergy
            let energyGained := consumed * o.phenotype.metabolism_rate
            let o : Organism := { o with
              energy := min o.phenotype.energy_capacity (o.energy + energyGained),
              hydration := min 100 (o.hydration + consumed * 2) }
            let cell : Cell := cell.setResource .ORGANIC_MATTER
              (cell.resources .ORGANIC_MATTER - consumed / (5/10))
            (o, cell)
          else (o, cell)
        else (o, cell)
      let o := oc.1
      let cell := oc.2
      if cell.resources .WATER > 0 ∧ o.hydration < 100 then
        let waterConsumed := min (dt * 2) (cell.resources .WATER)
        let o : Organism := { o with hydration := min 100 (o.hydration + waterConsumed * 20) }
        let cell : Cell := cell.setResource .WATER (cell.resources .WATER - waterConsumed)
        (o, some cell)
      else (o, some cell)

/-- Ageing (src/main.py line 1192). -/
def agingStep (o : Organism) (dt : ℚ) : Organism := { o with age := o.age + dt }

/-- Maturation (src/main.py lines 1195-1197). -/
def maturationStep (o : Organism) (dt : ℚ) : Organism :=
  if o.maturity < 1 then
    { o with maturity := min 1 (o.maturity + dt / o.phenotype.maturation_time) }
  else o

/-- Metabolism: energy consumption (src/main.py lines 1200-1201). -/
def metabolismStep (o : Organism) (dt : ℚ) : Organism :=
  { o with energy := max 0 (o.energy - o.phenotype.metabolism_rate * dt) }

/-- Metabolic waste production (src/main.py lines 1204-1205). -/
def wasteStep (o : Organism) (dt : ℚ) : Organism :=
  { o with waste := min 100 (o.waste + o.phenotype.metabolism_rate * dt
      * (1 - o.phenotype.waste_tolerance)) }

/-- Waste damage to health (src/main.py lines 1208-1210). -/
def wasteHealthStep (o : Organism) (dt : ℚ) : Organism :=
  if o.waste > 50 then
    { o with health := max 0 (o.health - (o.waste - 50) / 50 * dt * 2) }
  else o

/-- Dehydration (src/main.py lines 1213-1214). -/
def hydrationStep (o : Organism) (dt : ℚ) : Organism :=
  { o with hydration := max 0 (o.hydration - 2 * dt) }

/-- Dehydration damage to health (src/main.py lines 1215-1217). -/
def hydrationHealthStep (o : Organism) (dt : ℚ) : Organism :=
  if o.hydration < 20 then
    { o with health := max 0 (o.health - (20 - o.hydration) / 20 * dt * 5) }
  else o

/-- Hunger damage to health (src/main.py lines 1220-1222). -/
def hungerStep (o : Organism) (dt : ℚ) : Organism :=
  if o.energy < o.phenotype.energy_capacity * (1/10) then
    { o with health := max 0 (o.health - dt * 5) }
  else o

/-- Natural health recovery (src/main.py lines 1225-1230). -/
def recoveryStep (o : Organism) (dt : ℚ) : Organism :=
  if o.energy > o.phenotype.energy_capacity * (5/10) ∧ o.hydration > 50 ∧
     o.waste < 30 ∧ o.health < 100 then
    { o with health := min 100 (o.health + dt * o.phenotype.immune_strength) }
  else o

/-- Reproduction cooldown decay (src/main.py lines 1233-1234). -/
def cooldownStep (o : Organism) (dt : ℚ) : Organism :=
  if o.reproduction_cooldown > 0 then
    { o with reproduction_cooldown := max 0 (o.reproduction_cooldown - dt) }
  else o

/-- Mating readiness (src/main.py lines 1237-1241). -/
def readyStep (o : Organism) : Organism :=
  let rtm : Bool :=
    decide (o.maturity = 1) && decide (o.reproduction_cooldown = 0) &&
    decide (o.energy > o.phenotype.energy_capacity * (7/10)) && decide (o.health > 70) &&
    decide (o.offspring_count < o.phenotype.max_offspring)
  { o with ready_to_mate := rtm }

/-- Death check (src/main.py lines 1244-1245, calling `die` at 3195-3197). -/
def deathStep (o : Organism) : Organism :=
  if o.health ≤ 0 ∨ o.age > o.phenotype.lifespan then { o with is_alive := false } else o

/-- Movement clamped to the world bounds (src/main.py lines 1248-1257). -/
def movementStep (o : Organism) (worldW worldH dt : ℚ) : Organism :=
  let newPos := (max 0 (min worldW (o.position.1 + o.velocity.1 * dt)),
    max 0 (min worldH (o.position.2 + o.velocity.2 * dt)))
  { o with position := newPos }

/-- `Organism.update(world, delta_time)` (src/main.py lines 1186-1260): the
physiology steps in source order, then movement, then the environment
interaction.  `worldW`/`worldH` are `world.width`/`world.height` and `cell?`
the cell at the organism's position. -/
def Organism.update (o : Organism) (worldW worldH : ℚ) (cell? : Option Cell) (dt : ℚ) :
    Organism × Option Cell :=
  if !o.is_alive then (o, cell?)
  else
    let o := agingStep o dt
    let o := maturationStep o dt
    let o := metabolismStep o dt
    let o := wasteStep o dt
    let o := wasteHealthStep o dt
    let o := hydrationStep o dt
    let o := hydrationHealthStep o dt
    let o := hungerStep o dt
    let o := recoveryStep o dt
    let o := cooldownStep o dt
    let o := readyStep o
    let o := deathStep o
    let o := movementStep o worldW worldH dt
    o.interactWithEnvironment cell? dt

/-- `Organism._attack(target)` (src/main.py lines 3381-3395): the damage is
subtracted from the target's health with no clamp at zero; on a kill the
predator gains energy capped at its capacity. -/
def Organism.attack (o target : Organism) : Organism × Organism :=
  let damage := o.phenotype.attack_power * (1/2 + (1/2) * o.phenotype.strength)
  let effectiveDamage := damage * (1 - target.phenotype.defense_power / 15)
  let target := { target with health := target.health - max 0 effectiveDamage }
  if target.health ≤ 0 then
    let energyGained := target.phenotype.size * 50 * o.phenotype.metabolism_rate
    ({ o with energy := min o.phenotype.energy_capacity (o.energy + energyGained) }, target)
  else (o, target)

/-! ## Genetic comparison helpers (src/main.py lines 2785-3146)

The class defines `_calculate_genetic_similarity` twice (lines 1645 and 2785)
and `_count_significant_mutations` twice (lines 1812 and 2931); in Python the
later definition wins, so only the later versions are translated. -/

/-- Substring test, Python `needle in hay`. -/
def strContains (hay needle : String) : Bool :=
  (List.range (hay.length + 1)).any (fun i => needle.toList.isPrefixOf (hay.toList.drop i))

/-- The fundamental-gene list shared by the comparison helpers
(src/main.py lines 2794-2803). -/
def fundamentalGenes : List String :=
  ["metabolism_efficiency", "energy_storage", "waste_processing",
   "speed", "agility", "strength",
   "vision", "hearing", "smell",
   "fertility", "maturation_rate", "offspring_count",
   "immune_system", "toxin_resistance", "offense", "defense",
   "learning_capacity", "memory", "problem_solving",
   "temperature_tolerance", "pressure_tolerance", "radiation_tolerance"]

/-- Union of the key sets of two chromosomes, as iterated by the comparison
loops (`set | set`; the Python set order is unspecified, the embedding fixes
first-chromosome keys first). -/
def Chromosome.unionWith (c1 c2 : Chromosome) : List String :=
  unionKeys c1.keys c2.keys

/-- The per-chromosome-pair tally of `_calculate_genetic_similarity`
(src/main.py lines 2806-2830): weighted totals and weighted matches. -/
def similarityTally (c1 c2 : Chromosome) : ℚ × ℚ :=
  (c1.unionWith c2).foldl
    (fun (acc : ℚ × ℚ) gid =>
      let w : ℚ := if gid ∈ fundamentalGenes then 2 else 1
      let acc := (acc.1 + w, acc.2)
      match getKey? c1.genes gid, getKey? c2.genes gid with
      | some g1, some g2 =>
          let valueDiff := |g1.value - g2.value|
          let dominanceDiff := |g1.dominance - g2.dominance|
          let thr : ℚ := if gid ∈ fundamentalGenes then 15/100 else 25/100
          if valueDiff < thr ∧ dominanceDiff < 3/10 then (acc.1, acc.2 + w) else acc
      | _, _ => acc)
    (0, 0)

/-- `Organism._calculate_genetic_similarity(other)` — the live definition at
src/main.py lines 2785-2835: weighted fraction of near-identical genes over
index-matched chromosomes; 0 for a type mismatch or an empty tally. -/
def geneticSimilarity (selfType : OrganismType) (selfGenome : Genome)
    (otherType : OrganismType) (otherGenome : Genome) : ℚ :=
  if selfType ≠ otherType then 0
  else
    let tally := ((selfGenome.chromosomes.zip otherGenome.chromosomes).map
      (fun p => similarityTally p.1 p.2)).foldl (fun a b => (a.1 + b.1, a.2 + b.2)) (0, 0)
    if tally.1 = 0 then 0 else tally.2 / tally.1

/-- `Organism._calculate_genetic_diversity_with_genome(other_genome)`
(src/main.py lines 2842-2890): one minus the same weighted similarity, with
default similarity 0.5 when no genes were compared. -/
def geneticDiversityWithGenome (selfGenome : Genome) (otherGenome : Genome) : ℚ :=
  let tally := ((selfGenome.chromosomes.zip otherGenome.chromosomes).map
    (fun p => similarityTally p.1 p.2)).foldl (fun a b => (a.1 + b.1, a.2 + b.2)) (0, 0)
  if tally.1 = 0 then 1/2 else 1 - tally.2 / tally.1

/-- `Organism._calculate_species_dominance()` (src/main.py lines 2892-2929). -/
def speciesDominance (o : Organism) : ℚ :=
  let geneticStability := o.genome.getGeneValue "immune_system" * (5/10)
    + o.genome.getGeneValue "metabolism_efficiency" * (5/10)
  let physicalDominance := o.phenotype.strength * (3/10) + o.phenotype.size * (3/10)
    + o.phenotype.max_speed * (4/10)
  let reproductiveSuccess := min 1 ((o.offspring_count : ℚ) / 10) * (7/10)
    + o.genome.getGeneValue "fertility" * (3/10)
  let evolutionaryStability := min 1 ((o.generation : ℚ) / 50)
  let dominance := geneticStability * (25/100) + physicalDominance * (2/10)
    + o.adaptation_score * (3/10) + reproductiveSuccess * (15/100)
    + evolutionaryStability * (1/10)
  clamp 0 1 dominance

/-- The gene categories of `_count_significant_mutations`
(src/main.py lines 2944-2974), in dict order. -/
def geneCategories : List (String × List String) :=
  [("core", ["metabolism_efficiency", "energy_storage", "waste_processing",
             "immune_system", "toxin_resistance", "temperature_tolerance"]),
   ("morphological", ["size", "body_structure", "limb_length", "skin_type", "coloration",
                      "sensory_organs", "reproductive_organs"]),
   ("behavioral", ["aggression", "sociability", "territoriality", "parental_care",
                   "learning_capacity", "memory", "problem_solving"]),
   ("adaptive", ["speed", "agility", "strength", "vision", "hearing", "smell",
                 "pressure_tolerance", "radiation_tolerance", "toxin_production"]),
   ("reproductive", ["fertility", "maturation_rate", "offspring_count", "mating_display",
                     "reproductive_timing", "gamete_compatibility"])]

/-- First category whose member names occur as a substring of the gene id
(src/main.py lines 3006-3011; `gene_name in gene_id` is a substring test). -/
def categoryOf (gid : String) : Option String :=
  (geneCategories.find? (fun c => c.2.any (fun name => strContains gid name))).map Prod.fst

/-- The category weights of src/main.py lines 2982-2988. -/
def categoryWeight : Option String → ℚ
  | some "core" => 1
  | some "morphological" => 2
  | some "behavioral" => 3/2
  | some "adaptive" => 12/10
  | some "reproductive" => 5/2
  | _ => 1

/-- Mutation-count accumulator of `_count_significant_mutations`:
(count, significance, genes checked). -/
structure MutTally where
  count : ℤ
  significance : ℚ
  checked : ℤ
  deriving Repr, DecidableEq, Inhabited

/-- Per-chromosome-pair analysis of `_count_significant_mutations`
(src/main.py lines 2990-3106): value, dominance and mutation-rate changes on
common genes, plus added and removed genes. -/
def mutTallyStep (myChrom offChrom : Chromosome) (acc : MutTally) : MutTally :=
  let myKeys := myChrom.keys
  let offKeys := offChrom.keys
  let common := myKeys.filter (fun k => offKeys.contains k)
  let added := offKeys.filter (fun k => !(myKeys.contains k))
  let removed := myKeys.filter (fun k => !(offKeys.contains k))
  let acc := { acc with checked := acc.checked + common.length + added.length + removed.length }
  let acc := common.foldl
    (fun (acc : MutTally) gid =>
      let cat := categoryOf gid
      let w := categoryWeight cat
      match getKey? myChrom.genes gid, getKey? offChrom.genes gid with
      | some myGene, some offGene =>
          let thr : ℚ :=
            if cat = some "core" then 15/100
            else if cat = some "reproductive" then 18/100
            else if cat = some "morphological" then 20/100
            else 25/100
          let valueDiff := |myGene.value - offGene.value|
          let dominanceDiff := |myGene.dominance - offGene.dominance|
          let acc :=
            if valueDiff > thr then
              let impact := valueDiff * w
              let impact := if cat = some "core" ∧ valueDiff > 5/10 then impact * (15/10) else impact
              let impact :=
                if cat = some "morphological" ∧ valueDiff > 3/10 then impact * (18/10) else impact
              let impact :=
                if cat = some "reproductive" ∧ valueDiff > 25/100 then impact * 2 else impact
              { acc with count := acc.count + max 1 (pyInt impact),
                         significance := acc.significance + impact }
            else acc
          let acc :=
            if dominanceDiff > 3/10 then
              let dominanceImpact := dominanceDiff * w * (8/10)
              { acc with count := acc.count + max 1 (pyInt dominanceImpact),
                         significance := acc.significance + dominanceImpact }
            else acc
          if |myGene.mutation_rate - offGene.mutation_rate| > 1/100 then
            { acc with count := acc.count + 1, significance := acc.significance + (5/10) * w }
          else acc
      | _, _ => acc)
    acc
  let acc := added.foldl
    (fun (acc : MutTally) gid =>
      let cat := categoryOf gid
      let w := categoryWeight cat
      let impact := 1 * w
      let impact :=
        if cat = some "morphological" ∨ cat = some "reproductive" then impact * (15/10)
        else impact
      { acc with count := acc.count + max 1 (pyInt impact),
                 significance := acc.significance + impact })
    acc
  removed.foldl
    (fun (acc : MutTally) gid =>
      let cat := categoryOf gid
      let w := categoryWeight cat
      let impact := if cat = some "core" then (15/10) * w else (8/10) * w
      { acc with count := acc.count + max 1 (pyInt impact),
                 significance := acc.significance + impact })
    acc

/-- `Organism._count_significant_mutations(offspring_genome)` — the live
definition at src/main.py lines 2931-3146: returns the weighted mutation
count and normalised significance of an offspring genome relative to the
parent, with the chromosome-count and organism-type adjustments. -/
def countSignificantMutations (selfGenome : Genome) (selfType : OrganismType)
    (offspring : Genome) : ℤ × ℚ :=
  let tally : MutTally := ((selfGenome.chromosomes.zip offspring.chromosomes).map id).foldl
    (fun acc p => mutTallyStep p.1 p.2 acc) (⟨0, 0, 0⟩ : MutTally)
  let tally : MutTally :=
    if offspring.chromosomes.length ≠ selfGenome.chromosomes.length then
      let diff : ℤ := |(offspring.chromosomes.length : ℤ) - selfGenome.chromosomes.length|
      { tally with count := tally.count + diff * 5,
                   significance := tally.significance + (diff : ℚ) * 3 }
    else tally
  let tally : MutTally :=
    match selfType with
    | .UNICELLULAR =>
        { tally with count := pyInt ((tally.count : ℚ) * (12/10)),
                     significance := tally.significance * (8/10) }
    | .PLANT =>
        if offspring.chromosomes.length > selfGenome.chromosomes.length then
          { tally with significance := tally.significance * (9/10) }
        else
          { tally with significance := tally.significance * 1 }
    | .CARNIVORE =>
        { tally with count := pyInt ((tally.count : ℚ) * (9/10)),
                     significance := tally.significance * (13/10) }
    | .HERBIVORE => { tally with significance := tally.significance * (11/10) }
    | .OMNIVORE => { tally with significance := tally.significance * (12/10) }
  let significance : ℚ :=
    if tally.checked > 0 then min 1 (tally.significance / ((tally.checked : ℚ) * (8/10)))
    else 0
  (tally.count, significance)

/-! ## Bacterial conjugation (src/main.py lines 1916-1980) -/

/-- Random draws consumed by one `_bacterial_conjugation` call. -/
structure ConjugationDraws where
  genomeMut : ℕ → ℕ → GeneMutDraws
  transferCountDraw : ℕ
  donorChromDraw : ℕ
  recipientChromDraw : ℕ
  genePickDraw : ℕ → ℕ
  geneMutCoin : ℕ → ℚ
  geneMutDraws : ℕ → GeneMutDraws
  geneInitDom : ℕ → ℚ
  geneInitExpr : ℕ → ℚ
  posDx : ℚ
  posDy : ℚ
  speciationU : ℚ
  newSpeciesId : String
  offspringId : String
  deriving Inhabited

/-- The gene-transfer loop of `_bacterial_conjugation` (src/main.py lines
1930-1940): pick up to `transferCount` distinct genes from the donor
chromosome (`random.choice` then removal), each one re-mutated with
probability `mutationRate` or rebuilt by `Gene(gene_id, value, rate)` — a
fresh object whose dominance and expression level are fresh constructor
draws and whose epistasis/pleiotropy are empty. -/
def transferGenes (donorGenes : List (String × Gene)) (recipient : Chromosome)
    (transferCount : ℕ) (mutationRate : ℚ) (d : ConjugationDraws) : Chromosome :=
  let steps := min transferCount donorGenes.length
  let result := (List.range steps).foldl
    (fun (acc : List (String × Gene) × Chromosome) step =>
      let (pool, recip) := acc
      if pool.isEmpty then acc
      else
        let i := d.genePickDraw step % pool.length
        match pool.get? i with
        | some (gid, gene) =>
            let newGene : Gene :=
              if d.geneMutCoin step < mutationRate then
                gene.mutate (d.geneMutDraws step)
              else
                Gene.init gid gene.value gene.mutation_rate (d.geneInitDom step)
                  (d.geneInitExpr step)
            (pool.eraseIdx i, recip.addGene newGene)
        | none => acc)
    (donorGenes, recipient)
  result.2

/-- `Organism._bacterial_conjugation(mate, reproduction_cost, mutation_rate)`
(src/main.py lines 1916-1980): clone the recipient's genome with mutation,
transfer 1-5 random genes from a random donor chromosome onto a random
chromosome of the clone, build the offspring (generation =
`self.generation + 1`), apply a speciation draw against
`mutation_rate * 2.5`, split the energy cost 70/30 between recipient and
donor, and set the cooldowns 25/15.  The source stores the whole
`(count, significance)` tuple in `offspring.mutation_count` (line 1968); the
embedding keeps its count component. -/
def Organism.bacterialConjugation (self mate : Organism) (reproductionCost mutationRate : ℚ)
    (d : ConjugationDraws) : Organism × Organism × Organism :=
  let offspringGenome := self.genome.mutate d.genomeMut
  let offspringGenome :=
    -- line 1922: `if mate.genome.chromosomes and offspring_genome.chromosomes:`
    if !mate.genome.chromosomes.isEmpty ∧ !offspringGenome.chromosomes.isEmpty then
      let transferCount := pyRandint 1 5 d.transferCountDraw
      let donorIdx := d.donorChromDraw % mate.genome.chromosomes.length
      let recipIdx := d.recipientChromDraw % offspringGenome.chromosomes.length
      match mate.genome.chromosomes.get? donorIdx, offspringGenome.chromosomes.get? recipIdx with
      | some donor, some recip =>
          if donor.genes.isEmpty then offspringGenome
          else
            let recip := transferGenes donor.genes recip transferCount mutationRate d
            ⟨offspringGenome.chromosomes.set recipIdx recip⟩
      | _, _ => offspringGenome
    else offspringGenome
  let offspringPosition := (self.position.1 + d.posDx, self.position.2 + d.posDy)
  let newGeneration := self.generation + 1
  let speciesId :=
    if d.speciationU < mutationRate * (5/2) then d.newSpeciesId else self.species_id
  let offspring := Organism.init d.offspringId offspringPosition offspringGenome
    self.organism_type newGeneration [self.id, mate.id] speciesId
  let mutationCount := countSignificantMutations self.genome self.organism_type offspringGenome
  let offspring := { offspring with mutation_count := mutationCount.1 }
  let self := { self with
    energy := self.energy - reproductionCost * (7/10),
    reproduction_cooldown := 25,
    offspring_count := self.offspring_count + 1 }
  let mate := { mate with
    energy := mate.energy - reproductionCost * (3/10),
    reproduction_cooldown := 15 }
  (offspring, self, mate)

/-! ## Asexual reproduction (src/main.py lines 1982-2284) -/

/-- The five replication mutation kinds of the asexual path
(src/main.py line 2038). -/
inductive AsexOpKind where
  | point
  | duplication
  | deletion
  | insertion
  | rearrangement
  deriving Repr, DecidableEq, Inhabited

/-- Random draws consumed by one `_asexual_reproduction` call.  Per-chromosome
draws are indexed by the chromosome position, per-mutation draws by
(chromosome, mutation step).  The seed-position trigonometry
(`cos(angle)*distance`) is modelled by the resulting offsets
`posOffX`/`posOffY`. -/
structure AsexualDraws where
  genomeMut : ℕ → ℕ → GeneMutDraws
  chanceU : ℕ → ℚ
  countDraw : ℕ → ℕ
  opKind : ℕ → ℕ → AsexOpKind
  pointGenePick : ℕ → ℕ → ℕ
  pointDelta : ℕ → ℕ → ℚ
  pointRateCoin : ℕ → ℕ → ℚ
  pointRateDelta : ℕ → ℕ → ℚ
  dupGenePick : ℕ → ℕ → ℕ
  dupSuffix : ℕ → ℕ → ℕ
  dupModCoin : ℕ → ℕ → ℚ
  dupModDelta : ℕ → ℕ → ℚ
  dupRateCoin : ℕ → ℕ → ℚ
  dupRateFactor : ℕ → ℕ → ℚ
  dupInitDom : ℕ → ℕ → ℚ
  dupInitExpr : ℕ → ℕ → ℚ
  delPick : ℕ → ℕ → ℕ
  insSourceU : ℕ → ℕ → ℚ
  insSuffix : ℕ → ℕ → ℕ
  insValue : ℕ → ℕ → ℚ
  insRate : ℕ → ℕ → ℚ
  insTemplatePick : ℕ → ℕ → ℕ
  insDelta : ℕ → ℕ → ℚ
  insRateFactor : ℕ → ℕ → ℚ
  insInitDom : ℕ → ℕ → ℚ
  insInitExpr : ℕ → ℕ → ℚ
  rearrOtherPick : ℕ → ℕ → ℕ
  rearrCountDraw : ℕ → ℕ → ℕ
  rearrPick1 : ℕ → ℕ → ℕ → ℕ
  rearrPick2 : ℕ → ℕ → ℕ → ℕ
  posOffX : ℚ
  posOffY : ℚ
  speciationU : ℚ
  newSpeciesId : String
  offspringId : String
  deriving Inhabited

/-- Essential gene prefixes protected from deletion
(src/main.py line 2101). -/
def essentialGenePrefixes : List String := ["metabolism", "energy", "reproduction", "survival"]

/-- Apply one drawn replication mutation to the chromosome at index `i` of
the offspring genome (src/main.py lines 2034-2162).  `j` is the mutation
step within this chromosome. -/
def applyAsexOp (genome : List Chromosome) (i j : ℕ) (d : AsexualDraws) : List Chromosome :=
  match genome.get? i with
  | none => genome
  | some chrom =>
      match d.opKind i j with
      | .point =>
          -- lines 2043-2069: in-place point mutation of one existing gene,
          -- with a 10% chance of perturbing its own mutation rate
          if chrom.genes.isEmpty then genome
          else
            let keys := chrom.keys
            let gid := keys.get! (d.pointGenePick i j % keys.length)
            match getKey? chrom.genes gid with
            | none => genome
            | some gene =>
                let gene := { gene with value := clamp 0 1 (gene.value + d.pointDelta i j) }
                let gene :=
                  if d.pointRateCoin i j < 1/10 then
                    let newRate := clamp (1/100) (5/10) (gene.mutation_rate + d.pointRateDelta i j)
                    { gene with mutation_rate := newRate }
                  else gene
                genome.set i ⟨setKey chrom.genes gid gene⟩
      | .duplication =>
          -- lines 2071-2094: duplicate one gene under a fresh id; the copy is
          -- a fresh `Gene(...)` whose dominance/expression are constructor
          -- draws and whose epistasis/pleiotropy are empty
          if chrom.genes.isEmpty then genome
          else
            let keys := chrom.keys
            let gid := keys.get! (d.dupGenePick i j % keys.length)
            match getKey? chrom.genes gid with
            | none => genome
            | some gene =>
                let newId := gid ++ "_dup_" ++ toString (pyRandint 0 1000 (d.dupSuffix i j))
                let newValue :=
                  if d.dupModCoin i j < 3/10 then clamp 0 1 (gene.value + d.dupModDelta i j)
                  else gene.value
                let newRate :=
                  if d.dupRateCoin i j < 4/10 then
                    min (5/10) (gene.mutation_rate * d.dupRateFactor i j)
                  else gene.mutation_rate
                let newGene := Gene.init newId newValue newRate (d.dupInitDom i j) (d.dupInitExpr i j)
                genome.set i (chrom.addGene newGene)
      | .deletion =>
          -- lines 2096-2107: delete a random non-essential gene, only when
          -- the chromosome has more than one gene
          if chrom.genes.length > 1 then
            let nonEssential := chrom.keys.filter
              (fun g => !essentialGenePrefixes.any (fun p => g.startsWith p))
            if nonEssential.isEmpty then genome
            else
              let victim := nonEssential.get! (d.delPick i j % nonEssential.length)
              genome.set i ⟨chrom.genes.filter (fun p => p.1 ≠ victim)⟩
          else genome
      | .insertion =>
          -- lines 2109-2135: insert a de-novo gene (p = 0.3) or a strongly
          -- modified copy of an existing gene (p = 0.7)
          let deNovo := d.insSourceU i j < 3/10
          if deNovo ∨ chrom.genes.isEmpty then
            let newId := "gene_new_" ++ toString (pyRandint 0 1000 (d.insSuffix i j))
            let newGene := Gene.init newId (d.insValue i j) (d.insRate i j)
              (d.insInitDom i j) (d.insInitExpr i j)
            genome.set i (chrom.addGene newGene)
          else
            let keys := chrom.keys
            let tid := keys.get! (d.insTemplatePick i j % keys.length)
            match getKey? chrom.genes tid with
            | none => genome
            | some t =>
                let newId := tid ++ "_var_" ++ toString (pyRandint 0 1000 (d.insSuffix i j))
                let newValue := clamp 0 1 (t.value + d.insDelta i j)
                let newGene := Gene.init newId newValue (t.mutation_rate * d.insRateFactor i j)
                  (d.insInitDom i j) (d.insInitExpr i j)
                genome.set i (chrom.addGene newGene)
      | .rearrangement =>
          -- lines 2137-2162: swap 1-3 random gene values with another
          -- chromosome (object identity, i.e. a different index)
          if genome.length > 1 then
            let j0 := d.rearrOtherPick i j % (genome.length - 1)
            let otherIdx := if j0 ≥ i then j0 + 1 else j0
            match genome.get? otherIdx with
            | none => genome
            | some other =>
                if !chrom.genes.isEmpty ∧ !other.genes.isEmpty then
                  let exchangeCount := min (pyRandint 1 3 (d.rearrCountDraw i j))
                    (min chrom.genes.length other.genes.length)
                  let res := (List.range exchangeCount).foldl
                    (fun (acc : List (String × Gene) × List (String × Gene)) step =>
                      if !acc.1.isEmpty ∧ !acc.2.isEmpty then
                        let k1 := (acc.1.map Prod.fst).get! (d.rearrPick1 i j step % acc.1.length)
                        let k2 := (acc.2.map Prod.fst).get! (d.rearrPick2 i j step % acc.2.length)
                        swapAcross acc.1 k1 acc.2 k2
                      else acc)
                    (chrom.genes, other.genes)
                  (genome.set i ⟨res.1⟩).set otherIdx ⟨res.2⟩
                else genome
          else genome

/-- The extra replication-mutation pass of `_asexual_reproduction`
(src/main.py lines 2017-2162): for each chromosome, with probability
`min(0.9, rate·genes/10)` draw `min(randint(1, max(1, int(genes·rate·2))), 5)`
mutation operations and apply them in order.  The environmental mutagen
factor is 1.0 because `current_cell` is never assigned (lines 1997-2015 are
dead). -/
def asexualMutationPass (genome : Genome) (mutationRate : ℚ) (d : AsexualDraws) : Genome :=
  let n := genome.chromosomes.length
  let final := (List.range n).foldl
    (fun (acc : List Chromosome) i =>
      match acc.get? i with
      | none => acc
      | some chrom =>
          let geneCount := chrom.genes.length
          let chance := min (9/10) (mutationRate * geneCount / 10 * 1)
          let mutationCount :=
            if d.chanceU i < chance then
              let potential := max 1 (pyInt ((geneCount : ℚ) * mutationRate * 2)).toNat
              min (pyRandint 1 potential (d.countDraw i)) 5
            else 0
          (List.range mutationCount).foldl (fun acc j => applyAsexOp acc i j d) acc)
    genome.chromosomes
  ⟨final⟩

/-- The speciation probability of the asexual path (src/main.py lines
2211-2220), before and after its clamp to [0, 0.8]. -/
def asexualSpeciationProbability (mutationFactor geographicIsolation environmentalPressure
    generationFactor : ℚ) : ℚ :=
  min (8/10) (max 0 ((5/100) + mutationFactor * (4/10) + geographicIsolation +
    environmentalPressure + generationFactor))

/-- `Organism._asexual_reproduction(reproduction_cost, mutation_rate)`
(src/main.py lines 1982-2284).  Dead `hasattr` branches (the environmental
mutagen factors, the world milestone log, the resource-dependent cooldown)
are dropped: `current_cell` and `world` are never assigned.  The offspring
keeps `parent_ids = [self.id]` and `generation = self.generation + 1`; the
parent pays the full cost, gets cooldown 30 and counts the offspring. -/
def Organism.asexualReproduction (self : Organism) (reproductionCost mutationRate : ℚ)
    (d : AsexualDraws) : Organism × Organism :=
  let offspringGenome := self.genome.mutate d.genomeMut
  let offspringGenome := asexualMutationPass offspringGenome mutationRate d
  let offspringPosition := (self.position.1 + d.posOffX, self.position.2 + d.posOffY)
  let newGeneration := self.generation + 1
  let mutationResult := countSignificantMutations self.genome self.organism_type offspringGenome
  let mutationCount := mutationResult.1
  let mutationSignificance := mutationResult.2
  let mutationFactor := min 1 (((mutationCount : ℚ) / 5) * (mutationSignificance / (5/10)))
  let geographicIsolation : ℚ := if self.species_population < 5 then 2/10 else 0
  let environmentalPressure : ℚ :=
    if self.adaptation_score < 4/10 then 3/10
    else if self.adaptation_score < 6/10 then 15/100
    else 0
  let generationFactor := min (3/10) ((self.generation : ℚ) / 100)
  let speciationProbability := asexualSpeciationProbability mutationFactor geographicIsolation
    environmentalPressure generationFactor
  let newSpecies := d.speciationU < speciationProbability
  let speciesId := if newSpecies then d.newSpeciesId else self.species_id
  let offspring := Organism.init d.offspringId offspringPosition offspringGenome
    self.organism_type newGeneration [self.id] speciesId
  let offspring := { offspring with maturity := 0, mutation_count := mutationCount }
  let self := { self with
    energy := self.energy - reproductionCost,
    reproduction_cooldown := 30,
    offspring_count := self.offspring_count + 1 }
  (offspring, self)

/-! ## Self-pollination (src/main.py lines 2286-2433) -/

/-- Random draws of one `_self_pollination` call.  `seasonFactor` stands for
the deterministic `sin(age/100·π)·0.5 + 0.5` of line 2426, an irrational
real supplied as an input.  Seed-dispersal trigonometry is modelled by the
resulting offsets. -/
structure SelfPollinationDraws where
  genomeMut : ℕ → ℕ → GeneMutDraws
  swapIdxA : ℕ
  swapIdxB : ℕ
  swapCountDraw : ℕ
  swapPick1 : ℕ → ℕ
  swapPick2 : ℕ → ℕ
  extraMutU : ℕ → ℕ → ℚ
  extraMutDelta : ℕ → ℕ → ℚ
  deleteriousU : ℕ → ℕ → ℚ
  posOffX : ℚ
  posOffY : ℚ
  speciationU : ℚ
  newSpeciesId : String
  offspringId : String
  seasonFactor : ℚ
  deriving Inhabited

/-- `Organism._self_pollination(reproduction_cost, mutation_rate)`
(src/main.py lines 2286-2433): clone with mutation, swap 1-3 genes between
two of the offspring's own chromosomes, apply a stronger extra mutation pass
that accumulates inbreeding depression, disperse the seed, decide
speciation (base 0.05 + 0.03·count + 0.1·significance, plus a bump from the
repeated-self-pollination counter), then apply inbreeding penalties to the
offspring and the cost/cooldown to the parent. -/
def Organism.selfPollination (self : Organism) (reproductionCost mutationRate : ℚ)
    (d : SelfPollinationDraws) : Organism × Organism :=
  let offspringGenome := self.genome.mutate d.genomeMut
  -- intra-genome recombination (lines 2293-2309)
  let offspringGenome : Genome :=
    if offspringGenome.chromosomes.length ≥ 2 then
      let p := pySamplePair offspringGenome.chromosomes.length d.swapIdxA d.swapIdxB
      match offspringGenome.chromosomes.get? p.1, offspringGenome.chromosomes.get? p.2 with
      | some c1, some c2 =>
          if !c1.genes.isEmpty ∧ !c2.genes.isEmpty then
            let genesToSwap := min (pyRandint 1 3 d.swapCountDraw)
              (min c1.genes.length c2.genes.length)
            let res := (List.range genesToSwap).foldl
              (fun (acc : List (String × Gene) × List (String × Gene)) step =>
                if !acc.1.isEmpty ∧ !acc.2.isEmpty then
                  let k1 := (acc.1.map Prod.fst).get! (d.swapPick1 step % acc.1.length)
                  let k2 := (acc.2.map Prod.fst).get! (d.swapPick2 step % acc.2.length)
                  swapAcross acc.1 k1 acc.2 k2
                else acc)
              (c1.genes, c2.genes)
            ⟨(offspringGenome.chromosomes.set p.1 ⟨res.1⟩).set p.2 ⟨res.2⟩⟩
          else offspringGenome
      | _, _ => offspringGenome
    else offspringGenome
  -- extra mutations with inbreeding depression (lines 2311-2325)
  let pass := offspringGenome.chromosomes.enum.map
    (fun p =>
      let i := p.1
      let chrom := p.2
      let step := chrom.genes.enum.foldl
        (fun (acc : List (String × Gene) × ℚ) q =>
          let j := q.1
          let (gid, gene) := q.2
          if d.extraMutU i j < mutationRate then
            let gene := { gene with value := clamp 0 1 (gene.value + d.extraMutDelta i j) }
            let inb := if d.deleteriousU i j < 2/10 then acc.2 + 5/100 else acc.2
            (setKey acc.1 gid gene, inb)
          else acc)
        (chrom.genes, 0)
      step)
  let offspringGenome : Genome := ⟨pass.map (fun s => ⟨s.1⟩)⟩
  let inbreedingDepression : ℚ := (pass.map Prod.snd).sum
  let offspringPosition := (self.position.1 + d.posOffX, self.position.2 + d.posOffY)
  let newGeneration := self.generation + 1
  let mutationResult := countSignificantMutations self.genome self.organism_type offspringGenome
  let mutationCount := mutationResult.1
  let mutationSignificance := mutationResult.2
  let speciationChance := (5/100) + (mutationCount : ℚ) * (3/100) + mutationSignificance * (1/10)
  -- repeated self-pollination raises the chance (lines 2379-2383); the
  -- attribute is created at 1 on first use, with no bump that time
  let (selfPollinationCount, speciationChance) :=
    match self.self_pollination_count with
    | some n => (some (n + 1), speciationChance + min (2/10) (((n : ℚ) + 1) * (2/100)))
    | none => (some 1, speciationChance)
  let newSpecies := d.speciationU < speciationChance
  let speciesId := if newSpecies then d.newSpeciesId else self.species_id
  let offspring := Organism.init d.offspringId offspringPosition offspringGenome
    self.organism_type newGeneration [self.id] speciesId
  let offspring := { offspring with maturity := 0, mutation_count := mutationCount }
  -- inbreeding penalties (lines 2412-2420)
  let offspring :=
    if inbreedingDepression > 0 then
      let p := offspring.phenotype
      let p := { p with
        strength := p.strength * max (7/10) (1 - inbreedingDepression),
        metabolism_rate := p.metabolism_rate * max (7/10) (1 - inbreedingDepression),
        fertility := p.fertility * max (6/10) (1 - inbreedingDepression * (3/2)) }
      { offspring with health := max 50 (100 - inbreedingDepression * 100), phenotype := p }
    else offspring
  let seasonalCooldown := 40 * (1 - d.seasonFactor * (3/10))
  let self := { self with
    energy := self.energy - reproductionCost,
    reproduction_cooldown := seasonalCooldown,
    offspring_count := self.offspring_count + 1,
    self_pollination_count := selfPollinationCount }
  (offspring, self)

/-! ## Sexual reproduction (src/main.py lines 2435-2783) -/

/-- The speciation probability of the sexual path before its clamp
(src/main.py lines 2599-2607). -/
def sexualSpeciationProbabilityRaw (avgDivergence : ℚ) (mutationCount : ℤ)
    (environmentalPressure geographicIsolation generationFactor populationFactor : ℚ) : ℚ :=
  (5/100) + avgDivergence * (3/10) + ((mutationCount : ℚ) / 10) * (2/10) +
    environmentalPressure + geographicIsolation * (1/10) + generationFactor * (1/10) +
    populationFactor

/-- The clamp of line 2610: `min(0.8, max(0.0, p))`. -/
def sexualSpeciationProbability (avgDivergence : ℚ) (mutationCount : ℤ)
    (environmentalPressure geographicIsolation generationFactor populationFactor : ℚ) : ℚ :=
  min (8/10) (max 0 (sexualSpeciationProbabilityRaw avgDivergence mutationCount
    environmentalPressure geographicIsolation generationFactor populationFactor))

/-- Random draws of one `_sexual_reproduction` call.  `seasonFactor` and
`delayedSeasonFactor` stand for the deterministic sines of lines 2509 and
2517, and `distance` for the Euclidean distance of line 2582 — irrational
reals supplied as inputs; the birth-position trigonometry is modelled by the
resulting offsets. -/
structure SexualDraws where
  failU : ℚ
  repro : ReproDraws
  extraMutU : ℚ
  extraMut : ℕ → ℕ → GeneMutDraws
  extraMut2U : ℚ
  extraMut2 : ℕ → ℕ → GeneMutDraws
  speciationU : ℚ
  hybridFailU : ℚ
  hybridSpeciationU : ℚ
  posChoiceU : ℚ
  motherPosU : ℚ
  posOffX : ℚ
  posOffY : ℚ
  costMotherU : ℚ
  cooldownMotherU : ℚ
  newSpeciesId : String
  offspringId : String
  seasonFactor : ℚ
  delayedSeasonFactor : ℚ
  distance : ℚ
  deriving Inhabited

/-- `Organism._sexual_reproduction(mate, reproduction_cost, mutation_rate)`
(src/main.py lines 2435-2783).  Returns `none` when the mate cannot pay the
cost, when the success draw fails (both parents then get cooldown 20), or
when a low-compatibility hybridization fails.  Dead `hasattr` branches (the
environmental fertility and mutation factors of lines 2467-2501 and
2535-2543, the biome pressure of lines 2571-2579, the resource cooldown
factor of lines 2742-2749, the experience bonus of lines 2777-2781) are
dropped: `current_cell`, `current_biome` and `experience` are never
assigned.  The environmental mutation factor is therefore 1.0. -/
def Organism.sexualReproduction (self mate : Organism) (reproductionCost mutationRate : ℚ)
    (d : SexualDraws) : Option Organism × Organism × Organism :=
  if mate.energy < reproductionCost then (none, self, mate)
  else
    let geneticSim := geneticSimilarity self.organism_type self.genome
      mate.organism_type mate.genome
    -- success probability and inbreeding risk (lines 2445-2460)
    let chanceRisk : ℚ × ℚ :=
      if geneticSim > 9/10 then (6/10, (geneticSim - 9/10) * 5)
      else if geneticSim < 4/10 then (4/10, 0)
      else (1 - |geneticSim - 7/10| * (5/10), 0)
    let reproductionChance := chanceRisk.1
    let inbreedingRisk := chanceRisk.2
    let selfFertility := self.phenotype.fertility
    let mateFertility := mate.phenotype.fertility
    let fertilityFactor := (selfFertility + mateFertility) / 2
    let reproductionChance := reproductionChance * fertilityFactor
    -- seasonal factors from the parent's age (lines 2507-2518)
    let reproductionChance :=
      if self.organism_type = .PLANT then
        reproductionChance * ((7/10) + d.seasonFactor * (6/10))
      else if self.organism_type = .HERBIVORE then
        reproductionChance * ((8/10) + d.delayedSeasonFactor * (4/10))
      else reproductionChance
    if d.failU > reproductionChance then
      -- failed attempt: both parents get cooldown 20 (lines 2521-2525)
      ({ self with reproduction_cooldown := 20 }, { mate with reproduction_cooldown := 20 })
        |> fun p => (none, p.1, p.2)
    else
      let offspringGenome := Genome.reproduce self.genome mate.genome d.repro
      -- extra mutations at the environmentally adjusted rate; the factor is
      -- 1.0, so the second mutation of line 2553 never fires
      let environmentalMutationFactor : ℚ := 1
      let adjustedMutationRate := mutationRate * environmentalMutationFactor
      let offspringGenome :=
        if d.extraMutU < adjustedMutationRate then
          let g := offspringGenome.mutate d.extraMut
          if environmentalMutationFactor > 3/2 ∧ d.extraMut2U < 3/10 then
            g.mutate d.extraMut2
          else g
        else offspringGenome
      let mutationResult := countSignificantMutations self.genome self.organism_type
        offspringGenome
      let mutationCount := mutationResult.1
      let parent1Divergence := geneticDiversityWithGenome self.genome offspringGenome
      let parent2Divergence := geneticDiversityWithGenome mate.genome offspringGenome
      let avgDivergence := (parent1Divergence + parent2Divergence) / 2
      -- geographic isolation from the parents' distance (lines 2581-2588)
      let geographicIsolation := min 1 (d.distance / 500)
      let environmentalPressure : ℚ := if geographicIsolation > 7/10 then 1/10 else 0
      let generationFactor := min 1 ((max self.generation mate.generation : ℚ) / 50)
      let populationFactor : ℚ := if self.species_population < 10 then 1/10 else 0
      let speciationProbability := sexualSpeciationProbability avgDivergence mutationCount
        environmentalPressure geographicIsolation generationFactor populationFactor
      let newSpecies := d.speciationU < speciationProbability
      -- hybridization across species (lines 2615-2643)
      let hybrid :=
        if self.species_id ≠ mate.species_id then
          let geneticCompatibility := geneticSimilarity self.organism_type self.genome
            mate.organism_type mate.genome
          if geneticCompatibility < 4/10 ∧ d.hybridFailU > geneticCompatibility * (3/2) then
            none
          else
            let speciationProbability := speciationProbability + 2/10
            let newSpecies := d.hybridSpeciationU < speciationProbability
            if newSpecies then some (true, self.species_id)
            else
              let parent1Dominance := speciesDominance self
              let parent2Dominance := speciesDominance mate
              if parent1Dominance > parent2Dominance then some (false, self.species_id)
              else some (false, mate.species_id)
        else some (newSpecies, self.species_id)
      match hybrid with
      | none => (none, self, mate)
      | some (newSpecies, inheritedSpeciesId) =>
          let speciesId := if newSpecies then d.newSpeciesId else inheritedSpeciesId
          -- birth position (lines 2649-2673)
          let offspringPosition :=
            if self.organism_type = .PLANT then
              let parentChoice := if d.posChoiceU < 1/2 then self else mate
              (parentChoice.position.1 + d.posOffX, parentChoice.position.2 + d.posOffY)
            else if d.posChoiceU < 7/10 then
              let mother := if d.motherPosU < 1/2 then self else mate
              (mother.position.1 + d.posOffX, mother.position.2 + d.posOffY)
            else
              ((self.position.1 + mate.position.1) / 2 + d.posOffX,
               (self.position.2 + mate.position.2) / 2 + d.posOffY)
          let newGeneration := max self.generation mate.generation + 1
          let offspring := Organism.init d.offspringId offspringPosition offspringGenome
            self.organism_type newGeneration [self.id, mate.id] speciesId
          let offspring := { offspring with maturity := 0, mutation_count := mutationCount }
          -- inbreeding penalties (lines 2704-2714)
          let offspring :=
            if inbreedingRisk > 0 then
              let weaknessFactor := 1 - inbreedingRisk * (6/10)
              let p := offspring.phenotype
              let p := { p with
                strength := p.strength * weaknessFactor,
                metabolism_rate := p.metabolism_rate * weaknessFactor,
                immune_strength := p.immune_strength * weaknessFactor,
                fertility := p.fertility * max (5/10) (weaknessFactor - 1/10) }
              { offspring with health := max 60 (100 - inbreedingRisk * 80), phenotype := p }
            else offspring
          -- energy costs (lines 2716-2728)
          let costPair : Organism × Organism :=
            if self.organism_type = .PLANT then
              ({ self with energy := self.energy - reproductionCost * (6/10) },
               { mate with energy := mate.energy - reproductionCost * (4/10) })
            else if d.costMotherU < 1/2 then
              ({ self with energy := self.energy - reproductionCost * (7/10) },
               { mate with energy := mate.energy - reproductionCost * (3/10) })
            else
              ({ self with energy := self.energy - reproductionCost * (3/10) },
               { mate with energy := mate.energy - reproductionCost * (7/10) })
          let self := costPair.1
          let mate := costPair.2
          -- cooldowns (lines 2730-2771); the resource factor is 1.0
          let baseCooldown : ℚ :=
            match self.organism_type with
            | .PLANT => 40
            | .HERBIVORE => 50
            | .CARNIVORE => 60
            | .OMNIVORE => 55
            | _ => 50
          let resourceFactor : ℚ := 1
          let relativeAge := self.age / self.phenotype.lifespan
          let ageFactor : ℚ := if relativeAge > 7/10 then 1 + (relativeAge - 7/10) * 1 else 1
          let selfCooldown := baseCooldown * resourceFactor * ageFactor
          let mateCooldown := baseCooldown * resourceFactor * ageFactor
          let cooldownPair : ℚ × ℚ :=
            if self.organism_type ≠ .PLANT then
              if d.cooldownMotherU < 1/2 then (selfCooldown * (13/10), mateCooldown)
              else (selfCooldown, mateCooldown * (13/10))
            else (selfCooldown, mateCooldown)
          let selfCooldown := cooldownPair.1
          let mateCooldown := cooldownPair.2
          let self := { self with
            reproduction_cooldown := selfCooldown,
            offspring_count := self.offspring_count + 1 }
          let mate := { mate with
            reproduction_cooldown := mateCooldown,
            offspring_count := mate.offspring_count + 1 }
          (some offspring, self, mate)

/-! ## World bookkeeping (src/main.py lines 4871-4979, 5640-5651) -/

/-- The registry entry fields the claims read (src/main.py lines 4892-4904);
the naming and biome-distribution metadata is not modelled. -/
structure SpeciesRecord where
  count : ℤ
  is_extinct : Bool
  deriving Repr, DecidableEq, Inhabited

/-- The world state the claims read: the organism collection, the cap, the
species registry and the extinction counter (the spatial grid and the
statistics are not modelled). -/
structure WorldState where
  organisms : List Organism
  max_organisms : ℕ
  species_registry : List (String × SpeciesRecord)
  extinction_count : ℕ

/-- `World._remove_organism(organism)` (src/main.py lines 4958-4979): remove
the organism from the collection; only when it is still alive
("Ne pas compter les organismes déjà morts") decrement its registry count
and, if the count reaches zero, mark the species extinct and bump the
extinction counter.  Organisms are identified by their id. -/
def WorldState.removeOrganism (w : WorldState) (oid : String) : WorldState :=
  match w.organisms.find? (fun o => o.id = oid) with
  | none => w
  | some organism =>
      let organisms := (w.organisms.filter (fun o => o.id ≠ oid))
      if organism.is_alive then
        match getKey? w.species_registry organism.species_id with
        | some rec0 =>
            let rec1 : SpeciesRecord := { rec0 with count := rec0.count - 1 }
            let rec2 : SpeciesRecord :=
              if rec1.count ≤ 0 then { rec1 with is_extinct := true } else rec1
            let extinction :=
              if rec1.count ≤ 0 then w.extinction_count + 1 else w.extinction_count
            { w with organisms := organisms,
                     species_registry := setKey w.species_registry organism.species_id rec2,
                     extinction_count := extinction }
        | none => { w with organisms := organisms }
      else { w with organisms := organisms }

/-- Stable ascending insertion into a list sorted by adaptation score
(Python `sorted` is stable). -/
def insertByAdaptation (x : Organism) : List Organism → List Organism
  | [] => [x]
  | y :: t =>
      if y.adaptation_score < x.adaptation_score then y :: insertByAdaptation x t
      else x :: y :: t

/-- Python `sorted(orgs, key=lambda o: o.adaptation_score)`. -/
def sortByAdaptation (l : List Organism) : List Organism :=
  l.foldr insertByAdaptation []

/-- `World._cull_weakest_organisms(count)` (src/main.py lines 4943-4956):
when more than `count` organisms exist, remove the `count` lowest-adaptation
organisms among those that are **alive** (dead organisms are never culled). -/
def WorldState.cullWeakest (w : WorldState) (count : ℕ) : WorldState :=
  if w.organisms.length ≤ count then w
  else
    let toCull := (sortByAdaptation (w.organisms.filter (fun o => o.is_alive))).take count
    toCull.foldl (fun w o => w.removeOrganism o.id) w

/-- `World.add_organism(organism)` (src/main.py lines 4871-4941): cull one
weakest organism when the cap is reached, append the organism, then create
or update the registry entry of its species.  The naming, milestone and
biome-distribution bookkeeping is not modelled. -/
def WorldState.addOrganism (w : WorldState) (o : Organism) : WorldState :=
  let w := if w.organisms.length ≥ w.max_organisms then w.cullWeakest 1 else w
  let w := { w with organisms := w.organisms ++ [o] }
  match getKey? w.species_registry o.species_id with
  | none =>
      { w with species_registry :=
          setKey w.species_registry o.species_id ⟨1, false⟩ }
  | some rec0 =>
      { w with species_registry :=
          setKey w.species_registry o.species_id { rec0 with count := rec0.count + 1 } }

/-- The dead-organism branch of the `World.update` organism loop
(src/main.py lines 5640-5651): with per-tick probability `0.1·dt` the corpse
deposits `size · 10` biomass into its cell and is removed from the world. -/
def WorldState.decomposeStep (w : WorldState) (o : Organism) (u dt : ℚ) (cell? : Option Cell) :
    WorldState × Option Cell :=
  if u < dt * (1/10) then
    let cell? := cell?.map (fun c => c.addDecomposition (o.phenotype.size * 10))
    (w.removeOrganism o.id, cell?)
  else (w, cell?)

/-! ## Attribute model for the mate-quality evaluation
(src/main.py lines 905-951 and 1593-1627) -/

/-- The attribute names assigned by `Phenotype.__init__`
(src/main.py lines 905-951), i.e. exactly the attributes a `Phenotype`
object has. -/
def phenotypeAttrNames : List String :=
  ["genome", "metabolism_rate", "energy_capacity", "waste_tolerance",
   "max_speed", "agility", "strength",
   "vision_range", "hearing_range", "smell_sensitivity",
   "fertility", "maturation_time", "max_offspring",
   "immune_strength", "toxin_resistance", "attack_power", "defense_power",
   "learning_rate", "memory_capacity", "problem_solving",
   "temperature_range", "pressure_tolerance", "radiation_resistance",
   "size", "color", "lifespan", "aggression", "sociability"]

/-- Python attribute lookup `phenotype.<name>` for the scalar traits:
`some` value when the attribute exists, `none` (an `AttributeError`) when it
does not.  The non-scalar attributes `genome` and `color` are not read by
any translated caller. -/
def Phenotype.getattrScalar? (p : Phenotype) (name : String) : Option ℚ :=
  if name = "metabolism_rate" then some p.metabolism_rate
  else if name = "energy_capacity" then some p.energy_capacity
  else if name = "waste_tolerance" then some p.waste_tolerance
  else if name = "max_speed" then some p.max_speed
  else if name = "agility" then some p.agility
  else if name = "strength" then some p.strength
  else if name = "vision_range" then some p.vision_range
  else if name = "hearing_range" then some p.hearing_range
  else if name = "smell_sensitivity" then some p.smell_sensitivity
  else if name = "fertility" then some p.fertility
  else if name = "maturation_time" then some p.maturation_time
  else if name = "max_offspring" then some (p.max_offspring : ℚ)
  else if name = "immune_strength" then some p.immune_strength
  else if name = "toxin_resistance" then some p.toxin_resistance
  else if name = "attack_power" then some p.attack_power
  else if name = "defense_power" then some p.defense_power
  else if name = "learning_rate" then some p.learning_rate
  else if name = "memory_capacity" then some p.memory_capacity
  else if name = "problem_solving" then some p.problem_solving
  else if name = "temperature_range" then some p.temperature_range
  else if name = "pressure_tolerance" then some p.pressure_tolerance
  else if name = "radiation_resistance" then some p.radiation_resistance
  else if name = "size" then some p.size
  else if name = "lifespan" then some p.lifespan
  else if name = "aggression" then some p.aggression
  else if name = "sociability" then some p.sociability
  else none

/-- The sexual-selection mate-quality block of `Organism.try_reproduce`
(src/main.py lines 1593-1627), with every phenotype attribute read routed
through Python attribute lookup: herbivores read `max_speed`, carnivores
read `vision_range`, omnivores read `metabolism_efficiency` (line 1626);
`none` models the `AttributeError` raised when the attribute is missing.
For unicellulars and plants `mate_quality` keeps its initial 0.0. -/
def mateQuality (selfType : OrganismType) (mate : Organism) : Option ℚ := do
  let healthFactor := mate.health / 100
  let size ← mate.phenotype.getattrScalar? "size"
  let strength ← mate.phenotype.getattrScalar? "strength"
  let sizeFactor := size / 3
  let strengthFactor := strength / 2
  match selfType with
  | .HERBIVORE => do
      let maxSpeed ← mate.phenotype.getattrScalar? "max_speed"
      pure (healthFactor * (4/10) + sizeFactor * (2/10) + strengthFactor * (2/10) +
        maxSpeed / 10 * (2/10))
  | .CARNIVORE => do
      let visionRange ← mate.phenotype.getattrScalar? "vision_range"
      pure (healthFactor * (3/10) + sizeFactor * (2/10) + strengthFactor * (3/10) +
        visionRange / 20 * (2/10))
  | .OMNIVORE => do
      let metabolismEfficiency ← mate.phenotype.getattrScalar? "metabolism_efficiency"
      pure (healthFactor * (3/10) + sizeFactor * (2/10) + strengthFactor * (2/10) +
        metabolismEfficiency * (3/10))
  | _ => pure 0

/-! ## The spec's speciation-probability formula (claim C5) -/

/-- Modelled from the spec: "Speciation probability = 0.05 +
0.4·mutation_factor + 0.2·geographic_isolation + 0.3·environmental_pressure +
0.1·generation_factor + 0.1·population_factor, clamped to [0, 0.8]." -/
def specSpeciationProbability (mutationFactor geographicIsolation environmentalPressure
    generationFactor populationFactor : ℚ) : ℚ :=
  min (8/10) (max 0 ((5/100) + (4/10) * mutationFactor + (2/10) * geographicIsolation +
    (3/10) * environmentalPressure + (1/10) * generationFactor +
    (1/10) * populationFactor))

/-! ## Well-formedness and value-equality of genomes (claim C7) -/

/-- A chromosome dict is well formed when its keys are distinct and each
entry is keyed by its gene's own id (always true for genomes the source
builds through `add_gene`). -/
def Chromosome.WF (c : Chromosome) : Prop :=
  c.keys.Nodup ∧ ∀ p ∈ c.genes, (p.2).gene_id = p.1

instance (c : Chromosome) : Decidable c.WF := by
  unfold Chromosome.WF; infer_instance

/-- A genome is well formed when all its chromosomes are. -/
def Genome.WF (g : Genome) : Prop := ∀ c ∈ g.chromosomes, c.WF

instance (g : Genome) : Decidable g.WF := by
  unfold Genome.WF; infer_instance

/-- Every gene of every chromosome has `mutation_rate = 0`. -/
def Genome.zeroRate (g : Genome) : Prop :=
  ∀ c ∈ g.chromosomes, ∀ p ∈ c.genes, (p.2).mutation_rate = 0

instance (g : Genome) : Decidable g.zeroRate := by
  unfold Genome.zeroRate; infer_instance

/-- Value-equality of genomes in the sense of claim C7: same chromosome
count, and per position the same gene ids with the same gene values. -/
def Genome.valEq (g1 g2 : Genome) : Prop :=
  g1.chromosomes.length = g2.chromosomes.length ∧
  ∀ i k, ((g1.chromosomes.get? i).bind (fun c => getKey? c.genes k)).map Gene.value =
    ((g2.chromosomes.get? i).bind (fun c => getKey? c.genes k)).map Gene.value

/-! ## Concrete inputs used by counterexamples and witnesses -/

/-- A gene with given value and mutation rate (neutral dominance and
expression, no interactions). -/
def geneEx (id : String) (v r : ℚ) : Gene := ⟨id, v, r, 1/2, [], [], 1/2⟩

/-- A one-chromosome genome holding one gene `g` of value 0, rate 0. -/
def genomeA : Genome := ⟨[⟨[("g", geneEx "g" 0 0)]⟩]⟩

/-- A one-chromosome genome holding one gene `g` of value 1, rate 0. -/
def genomeB : Genome := ⟨[⟨[("g", geneEx "g" 1 0)]⟩]⟩

/-- A two-chromosome genome with zero mutation rates. -/
def genomeTwo : Genome := ⟨[⟨[("a", geneEx "a" (1/4) 0)]⟩, ⟨[("b", geneEx "b" (3/4) 0)]⟩]⟩

/-- A phenotype with round values, each inside the range its trait is mapped
to by `Phenotype.__init__`. -/
def phenotypeEx : Phenotype :=
  { metabolism_rate := 1, energy_capacity := 100, waste_tolerance := 1/2, max_speed := 5,
    agility := 1/2, strength := 1, vision_range := 25, hearing_range := 20,
    smell_sensitivity := 1/2, fertility := 1/2, maturation_time := 50, max_offspring := 10,
    immune_strength := 1/2, toxin_resistance := 1/2, attack_power := 5, defense_power := 5,
    learning_rate := 1/2, memory_capacity := 1/2, problem_solving := 1/2,
    temperature_range := 30, pressure_tolerance := 5, radiation_resistance := 1/2,
    size := 1, color := (128, 128, 128), lifespan := 500, aggression := 1/2,
    sociability := 1/2 }

/-- An adult organism in a reachable mature state: full health and
hydration, in-range phenotype. -/
def orgEx (oid sid : String) (t : OrganismType) (g : Genome) (gen : ℕ) : Organism :=
  { id := oid, organism_type := t, position := (0, 0), velocity := (0, 0), age := 0,
    generation := gen, parent_ids := [], species_id := sid, mutation_count := 0,
    adaptation_score := 0, species_population := 1, geographic_isolation := 0,
    evolutionary_pressures := [], genome := g, phenotype := phenotypeEx,
    energy := 100, health := 100, hydration := 100, waste := 0, is_alive := true,
    maturity := 1, reproduction_cooldown := 0, offspring_count := 0,
    self_pollination_count := none, ready_to_mate := true }

/-- A strong attacker: derivable trait values (attack 10, strength 1). -/
def attackerEx : Organism :=
  let base := orgEx "atk" "s1" .CARNIVORE genomeA 1
  let p := { phenotypeEx with attack_power := 10, strength := 1 }
  { base with phenotype := p }

/-- A weakened victim: health 1 (e.g. after starvation), defense 0. -/
def victimEx : Organism :=
  let base := orgEx "vic" "s2" .HERBIVORE genomeA 1
  let p := { phenotypeEx with defense_power := 0 }
  { base with phenotype := p, health := 1 }

/-- Draws for a bacterial conjugation with no mutation effects. -/
def conjDrawsEx : ConjugationDraws :=
  { genomeMut := fun _ _ => default, transferCountDraw := 0, donorChromDraw := 0,
    recipientChromDraw := 0, genePickDraw := fun _ => 0, geneMutCoin := fun _ => 1,
    geneMutDraws := fun _ => default, geneInitDom := fun _ => 0, geneInitExpr := fun _ => 0,
    posDx := 0, posDy := 0, speciationU := 1, newSpeciesId := "new-species",
    offspringId := "offspring" }

/-- Draws for `Genome.reproduce` in which no anomaly, duplication or
deletion fires and no gene mutates. -/
def reproDrawsEx : ReproDraws :=
  { anomalyU := 1, dupU := 1, delU := 1, delIdxDraw := fun _ => 0, dupIdxDraw := fun _ => 0,
    combineCoin := fun _ _ => 1, combineMut := fun _ _ => default, dupMut := fun _ => default,
    extraU := fun _ => 1, extraExpr := fun _ _ => 0, extraMut := fun _ _ => default,
    anoIdxA := 0, anoIdxB := 0, anoKind := .fusion, transCountDraw := 0,
    transSel1 := fun _ => 0, transSel2 := fun _ => 0, invSizeDraw := 0, invStartDraw := 0 }

/-- Draws identical to `reproDrawsEx` except that the chromosome-deletion
draw fires (`delU = 0 < 0.005`). -/
def reproDrawsDel : ReproDraws := { reproDrawsEx with delU := 0 }

/-- Draws for a sexual reproduction between two species in which the
success draw passes, the hybridization-failure draw passes, and the
hybrid speciation draw is 0.81. -/
def sexDrawsEx : SexualDraws :=
  { failU := 0, repro := reproDrawsEx, extraMutU := 1, extraMut := fun _ _ => default,
    extraMut2U := 1, extraMut2 := fun _ _ => default, speciationU := 1, hybridFailU := 0,
    hybridSpeciationU := 81/100, posChoiceU := 0, motherPosU := 0, posOffX := 0, posOffY := 0,
    costMotherU := 0, cooldownMotherU := 0, newSpeciesId := "fresh-species",
    offspringId := "offspring", seasonFactor := 1/2, delayedSeasonFactor := 1/2,
    distance := 500 }

/-- A cell with capacities like those the program actually creates:
`World._generate_world` calls `_initialize_cell_resources` for every cell
(src/main.py line 4425), which sets each capacity to
`max(0.1, base*modifier ± 15%)` with bases of order 0.1-2.1
(lines 4797-4805) — far below the constant caps 100 (oxygen) and 1.0 (CO2)
hard-coded in `WorldCell.update` and `add_decomposition`.  Every resource
starts within `[0, capacity]`. -/
def cellReal : Cell :=
  { biome_type := .GRASSLAND, temperature := 20, altitude := 0,
    resources := fun r => match r with
      | .SUNLIGHT => 1 | .WATER => 1 | .MINERALS => 1/10 | .OXYGEN => 1/2
      | .CO2 => 3/20 | .ORGANIC_MATTER => 1/10,
    resource_capacity := fun r => match r with
      | .SUNLIGHT => 2 | .WATER => 2 | .MINERALS => 1/2 | .OXYGEN => 1/2
      | .CO2 => 3/20 | .ORGANIC_MATTER => 1/2,
    resource_regen_rate := fun _ => 1/10 }

/-- A photosynthesising plant with the example phenotype. -/
def plantEx : Organism := orgEx "p" "sp" .PLANT genomeA 1

/-- A dead organism awaiting decomposition. -/
def deadOrg (oid sid : String) : Organism :=
  { orgEx oid sid .HERBIVORE genomeA 1 with is_alive := false, health := 0 }

/-- A world holding only the dead sole member of species `X`. -/
def worldSoleDead : WorldState :=
  { organisms := [deadOrg "x" "X"], max_organisms := 100,
    species_registry := [("X", ⟨1, false⟩)], extinction_count := 0 }

/-- A world at its cap of 2 with both organisms dead. -/
def worldCapDead : WorldState :=
  { organisms := [deadOrg "x" "X", deadOrg "y" "Y"], max_organisms := 2,
    species_registry := [], extinction_count := 0 }

/-! ## Claim C8 -/

/-- `q` agrees with `p` on every field except possibly `energy`,
`reproduction_cooldown` and the offspring counters (`offspring_count`,
`self_pollination_count`); in particular `q.genome = p.genome`. -/
def parentFrame (p q : Organism) : Prop :=
  q = { p with
    energy := q.energy,
    reproduction_cooldown := q.reproduction_cooldown,
    offspring_count := q.offspring_count,
    self_pollination_count := q.self_pollination_count }

/-- A world holding one live organism of species `X`. -/
def worldSoleLive : WorldState :=
  { organisms := [orgEx "x" "X" .HERBIVORE genomeA 1], max_organisms := 100,
    species_registry := [("X", ⟨1, false⟩)], extinction_count := 0 }

/-- Registry `reg2` keeps every extinct mark present in `reg1`: the flag is
never cleared. -/
def extinctStays (reg1 reg2 : List (String × SpeciesRecord)) : Prop :=
  ∀ s r, getKey? reg1 s = some r → r.is_extinct = true →
    ∃ q, getKey? reg2 s = some q ∧ q.is_extinct = true

/-- A world at its cap of 2 with both residents alive. -/
def worldCapLive : WorldState :=
  { organisms := [orgEx "a" "A" .HERBIVORE genomeA 1, orgEx "b" "B" .HERBIVORE genomeA 1],
    max_organisms := 2,
    species_registry := [("A", ⟨1, false⟩), ("B", ⟨1, false⟩)], extinction_count := 0 }

/-- The health/energy bounds of claim C2 together with the phenotype
nonnegativity the physiology steps rely on. -/
def updOK (o : Organism) : Prop :=
  0 ≤ o.health ∧ o.health ≤ 100 ∧ 0 ≤ o.energy ∧ o.energy ≤ o.phenotype.energy_capacity ∧
  0 ≤ o.phenotype.metabolism_rate ∧ 0 ≤ o.phenotype.immune_strength ∧
  0 ≤ o.phenotype.strength

/-- Every resource of the cell is nonnegative, and within its capacity for
every resource outside the exception list `exc`. -/
def resWithin (c : Cell) (exc : List ResourceType) : Prop :=
  ∀ r, 0 ≤ c.resources r ∧ (r ∉ exc → c.resources r ≤ c.resource_capacity r)

/-- The cell's fixed parameter vectors are nonnegative, as
`_initialize_cell_resources` guarantees (capacity floor 0.1, src/main.py
line 4805). -/
def cellParamsOK (c : Cell) : Prop :=
  (∀ r, 0 ≤ c.resource_capacity r) ∧ (∀ r, 0 ≤ c.resource_regen_rate r)

/-! ### C1 support lemmas and theorems -/

theorem foldl_preserves {α β : Type} (P : α → Prop) (f : α → β → α) (l : List β)
    (hstep : ∀ acc b, b ∈ l → P acc → P (f acc b)) :
    ∀ init, P init → P (l.foldl f init) := by
  induction l with
  | nil => intro init h; exact h
  | cons b t ih =>
      intro init h
      exact ih (fun acc x hx hacc => hstep acc x (List.mem_cons_of_mem b hx) hacc)
        (f init b) (hstep init b (List.mem_cons_self b t) h)

theorem setRes_self (f : ResourceType → ℚ) (r : ResourceType) (v : ℚ) :
    setRes f r v r = v := if_pos rfl

theorem setRes_ne (f : ResourceType → ℚ) (r : ResourceType) (v : ℚ) (r' : ResourceType)
    (h : r' ≠ r) : setRes f r v r' = f r' := if_neg h

theorem resWithin_set (c : Cell) (r0 : ResourceType) (v : ℚ) (exc : List ResourceType)
    (hc : resWithin c exc) (h0 : 0 ≤ v)
    (hcap : r0 ∉ exc → v ≤ c.resource_capacity r0) :
    resWithin (c.setResource r0 v) exc := by
  intro r
  by_cases h : r = r0
  · subst h
    constructor
    · show 0 ≤ setRes c.resources r v r
      rw [setRes_self]
      exact h0
    · intro hex
      show setRes c.resources r v r ≤ c.resource_capacity r
      rw [setRes_self]
      exact hcap hex
  · constructor
    · show 0 ≤ setRes c.resources r0 v r
      rw [setRes_ne _ _ _ _ h]
      exact (hc r).1
    · intro hex
      show setRes c.resources r0 v r ≤ c.resource_capacity r
      rw [setRes_ne _ _ _ _ h]
      exact (hc r).2 hex

theorem resWithin_of_nil {c : Cell} (h : resWithin c []) (exc : List ResourceType) :
    resWithin c exc :=
  fun r => ⟨(h r).1, fun _ => (h r).2 (List.not_mem_nil r)⟩

theorem diffuse_within (c : Cell) (rt : ResourceType) (ns : List Cell) (dt : ℚ)
    (exc : List ResourceType)
    (hc : resWithin c exc) (hp : cellParamsOK c) (hns : ∀ n ∈ ns, resWithin n []) :
    resWithin (c.diffuseResource rt ns dt).1 exc ∧
    cellParamsOK (c.diffuseResource rt ns dt).1 ∧
    ∀ n ∈ (c.diffuseResource rt ns dt).2, resWithin n [] := by
  unfold Cell.diffuseResource
  split
  · exact ⟨hc, hp, hns⟩
  · refine foldl_preserves
      (fun p => resWithin p.1 exc ∧ cellParamsOK p.1 ∧ ∀ n ∈ p.2, resWithin n []) _ _
      ?_ (c, []) ⟨hc, hp, fun n hn => absurd hn (List.not_mem_nil n)⟩
    intro acc nf hnf hacc
    obtain ⟨ha1, ha2, ha3⟩ := hacc
    have hn1 : resWithin nf.1 [] := hns nf.1 (List.of_mem_zip hnf).1
    dsimp only
    split
    · rename_i hflow
      refine ⟨?_, ha2, ?_⟩
      · refine resWithin_set _ _ _ _ ha1 (sub_nonneg.2 (min_le_right _ _)) ?_
        intro hex
        exact le_trans (sub_le_self _ (le_min (le_of_lt hflow) (ha1 rt).1)) ((ha1 rt).2 hex)
      · intro n hn
        rcases List.mem_append.mp hn with hn2 | hn2
        · exact ha3 n hn2
        · rw [List.mem_singleton.mp hn2]
          refine resWithin_set _ _ _ _ hn1 ?_ (fun _ => min_le_left _ _)
          exact le_min (le_trans (hn1 rt).1 ((hn1 rt).2 (List.not_mem_nil rt)))
            (add_nonneg (hn1 rt).1 (le_min (le_of_lt hflow) (ha1 rt).1))
    · refine ⟨ha1, ha2, ?_⟩
      intro n hn
      rcases List.mem_append.mp hn with hn2 | hn2
      · exact ha3 n hn2
      · rw [List.mem_singleton.mp hn2]
        exact hn1

theorem within_growthChain (c : Cell) (g : ℚ) (hc : resWithin c [.OXYGEN, .CO2])
    (hp : cellParamsOK c) (hg : 0 ≤ g) :
    resWithin (((c.setResource .ORGANIC_MATTER (min (c.resource_capacity .ORGANIC_MATTER)
        (c.resources .ORGANIC_MATTER + g))).setResource .CO2
          (max (1/10) ((c.setResource .ORGANIC_MATTER
            (min (c.resource_capacity .ORGANIC_MATTER)
              (c.resources .ORGANIC_MATTER + g))).resources .CO2 - g * (1/10)))).setResource
        .OXYGEN (min 100 (((c.setResource .ORGANIC_MATTER
          (min (c.resource_capacity .ORGANIC_MATTER)
            (c.resources .ORGANIC_MATTER + g))).setResource .CO2
              (max (1/10) ((c.setResource .ORGANIC_MATTER
                (min (c.resource_capacity .ORGANIC_MATTER)
                  (c.resources .ORGANIC_MATTER + g))).resources .CO2
                    - g * (1/10)))).resources .OXYGEN + g * (2/10))))
      [.OXYGEN, .CO2] := by
  have h1 : resWithin (c.setResource .ORGANIC_MATTER
      (min (c.resource_capacity .ORGANIC_MATTER) (c.resources .ORGANIC_MATTER + g)))
      [.OXYGEN, .CO2] :=
    resWithin_set _ _ _ _ hc
      (le_min (hp.1 _) (add_nonneg (hc .ORGANIC_MATTER).1 hg))
      (fun _ => min_le_left _ _)
  have h2 : resWithin ((c.setResource .ORGANIC_MATTER
      (min (c.resource_capacity .ORGANIC_MATTER) (c.resources .ORGANIC_MATTER + g))).setResource
        .CO2 (max (1/10) ((c.setResource .ORGANIC_MATTER
          (min (c.resource_capacity .ORGANIC_MATTER)
            (c.resources .ORGANIC_MATTER + g))).resources .CO2 - g * (1/10))))
      [.OXYGEN, .CO2] :=
    resWithin_set _ _ _ _ h1
      (le_trans (by norm_num) (le_max_left _ _))
      (fun hex => absurd (by decide) hex)
  exact resWithin_set _ _ _ _ h2
    (le_min (by norm_num) (add_nonneg (h2 .OXYGEN).1 (mul_nonneg hg (by norm_num))))
    (fun hex => absurd (by decide) hex)

set_option maxHeartbeats 1600000 in
theorem update_resource_within (dt : ℚ) (d : CellUpdateDraws) (acc : Cell × List Cell)
    (rt : ResourceType)
    (h : resWithin acc.1 [.OXYGEN, .CO2] ∧ cellParamsOK acc.1 ∧
      ∀ n ∈ acc.2, resWithin n [])
    (hdt : 0 ≤ dt) (hpre : 0 ≤ d.precipAmount) :
    resWithin (Cell.updateResource dt d acc rt).1 [.OXYGEN, .CO2] ∧
    cellParamsOK (Cell.updateResource dt d acc rt).1 ∧
    ∀ n ∈ (Cell.updateResource dt d acc rt).2, resWithin n [] := by
  obtain ⟨hc, hp, hns⟩ := h
  cases rt with
  | SUNLIGHT => exact ⟨hc, hp, hns⟩
  | WATER =>
      have hd := diffuse_within acc.1 .WATER acc.2 dt _ hc hp hns
      simp only [Cell.updateResource]
      generalize hq : (acc.1).diffuseResource ResourceType.WATER acc.2 dt = q
      rw [hq] at hd
      obtain ⟨hd1, hd2, hd3⟩ := hd
      split <;> split <;>
        first
          | exact ⟨hd1, hd2, hd3⟩
          | (refine ⟨resWithin_set _ _ _ _ hd1 ?_ (fun _ => min_le_left _ _), hd2, hd3⟩;
             exact le_min (hd2.1 _) (add_nonneg (hd1 .WATER).1 hpre))
  | MINERALS =>
      simp only [Cell.updateResource]
      split
      · refine ⟨resWithin_set _ _ _ _ hc ?_ (fun _ => min_le_left _ _), hp, hns⟩
        exact le_min (hp.1 _)
          (add_nonneg (hc .MINERALS).1
            (mul_nonneg (mul_nonneg (hp.2 .MINERALS) hdt) (by norm_num)))
      · exact ⟨hc, hp, hns⟩
  | ORGANIC_MATTER =>
      simp only [Cell.updateResource]
      split
      · refine ⟨within_growthChain acc.1 _ hc hp ?_, hp, hns⟩
        exact le_trans (mul_nonneg (by norm_num) hdt) (le_max_left _ _)
      · refine ⟨resWithin_set _ _ _ _ hc ?_ (fun _ => min_le_left _ _), hp, hns⟩
        exact le_min (hp.1 _)
          (add_nonneg (hc .ORGANIC_MATTER).1 (mul_nonneg (by norm_num) hdt))
  | OXYGEN =>
      have hd := diffuse_within acc.1 .OXYGEN acc.2 dt _ hc hp hns
      simp only [Cell.updateResource]
      generalize hq : (acc.1).diffuseResource ResourceType.OXYGEN acc.2 dt = q
      rw [hq] at hd
      obtain ⟨hd1, hd2, hd3⟩ := hd
      have hconv : (0 : ℚ) ≤ q.1.resources .OXYGEN * (1/1000) * dt :=
        mul_nonneg (mul_nonneg (hd1 .OXYGEN).1 (by norm_num)) hdt
      have h1 : resWithin (q.1.setResource .OXYGEN
          (max 0 (q.1.resources .OXYGEN - q.1.resources .OXYGEN * (1/1000) * dt)))
          [.OXYGEN, .CO2] :=
        resWithin_set _ _ _ _ hd1 (le_max_left _ _)
          (fun hex => absurd (by decide) hex)
      refine ⟨?_, hd2, hd3⟩
      refine resWithin_set _ _ _ _ h1 ?_ (fun hex => absurd (by decide) hex)
      exact le_min (by norm_num) (add_nonneg ((h1 : resWithin _ _) .CO2).1
        (mul_nonneg hconv (by norm_num)))
  | CO2 =>
      exact diffuse_within acc.1 .CO2 acc.2 dt _ hc hp hns

set_option maxHeartbeats 1600000 in
theorem update_within (c : Cell) (dt : ℚ) (ns : List Cell) (d : CellUpdateDraws)
    (hc : resWithin c []) (hp : cellParamsOK c) (hns : ∀ n ∈ ns, resWithin n [])
    (hdt : 0 ≤ dt) (hpre : 0 ≤ d.precipAmount) :
    resWithin (c.update dt ns d).1 [.OXYGEN, .CO2] ∧
    ∀ n ∈ (c.update dt ns d).2, resWithin n [] := by
  have hloop := foldl_preserves
    (fun p => resWithin p.1 [.OXYGEN, .CO2] ∧ cellParamsOK p.1 ∧
      ∀ n ∈ p.2, resWithin n [])
    (fun acc rt => Cell.updateResource dt d acc rt)
    [ResourceType.SUNLIGHT, .WATER, .MINERALS, .OXYGEN, .CO2, .ORGANIC_MATTER]
    (fun acc rt _ hacc => update_resource_within dt d acc rt hacc hdt hpre)
    (c, ns) ⟨resWithin_of_nil hc _, hp, hns⟩
  simp only [Cell.update]
  generalize hq : ([ResourceType.SUNLIGHT, .WATER, .MINERALS, .OXYGEN, .CO2,
    .ORGANIC_MATTER].foldl (fun acc rt => Cell.updateResource dt d acc rt) (c, ns)) = q
  rw [hq] at hloop
  obtain ⟨hq1, hq2, hq3⟩ := hloop
  split
  · rename_i hcond
    have hwl : 0 ≤ min (q.1.resources .WATER) ((q.1.temperature - 25) * (2/1000) * dt) :=
      le_min (hq1 .WATER).1
        (mul_nonneg (mul_nonneg (by linarith [hcond.1]) (by norm_num)) hdt)
    have hc' : resWithin (q.1.setResource .WATER (q.1.resources .WATER -
        min (q.1.resources .WATER) ((q.1.temperature - 25) * (2/1000) * dt)))
        [.OXYGEN, .CO2] :=
      resWithin_set _ _ _ _ hq1 (sub_nonneg.2 (min_le_left _ _))
        (fun hex => le_trans (sub_le_self _ hwl) ((hq1 .WATER).2 hex))
    split
    · exact ⟨hc', hq3⟩
    · refine ⟨hc', ?_⟩
      intro n hn
      obtain ⟨m, hm, hmn⟩ := List.mem_map.mp hn
      rw [← hmn]
      refine resWithin_set _ _ _ _ (hq3 m hm) ?_ (fun _ => min_le_left _ _)
      refine le_min (le_trans ((hq3 m hm) .WATER).1
        (((hq3 m hm) .WATER).2 (List.not_mem_nil _))) ?_
      refine add_nonneg ((hq3 m hm) .WATER).1 ?_
      exact div_nonneg (mul_nonneg hwl (by norm_num)) (Nat.cast_nonneg _)
  · exact ⟨hq1, hq3⟩

theorem addDecomposition_within (c : Cell) (b : ℚ) (hc : resWithin c [])
    (hp : cellParamsOK c) (hb : 0 ≤ b) : resWithin (c.addDecomposition b) [.CO2] := by
  have hc' : resWithin c [.CO2] := resWithin_of_nil hc _
  simp only [Cell.addDecomposition]
  have h1 : resWithin (c.setResource .ORGANIC_MATTER
      (min (c.resource_capacity .ORGANIC_MATTER)
        (c.resources .ORGANIC_MATTER + b * (5/10)))) [.CO2] :=
    resWithin_set _ _ _ _ hc'
      (le_min (hp.1 _) (add_nonneg (hc .ORGANIC_MATTER).1 (mul_nonneg hb (by norm_num))))
      (fun _ => min_le_left _ _)
  have h2 := resWithin_set _ .MINERALS _ [.CO2] h1
    (le_min (hp.1 .MINERALS)
      (add_nonneg (h1 .MINERALS).1 (mul_nonneg hb (show (0:ℚ) ≤ 2/10 by norm_num))))
    (fun _ => min_le_left _ _)
  exact resWithin_set _ .CO2 _ [.CO2] h2
    (le_min (by norm_num) (add_nonneg (h2 .CO2).1
      (mul_nonneg hb (show (0:ℚ) ≤ 1/10 by norm_num))))
    (fun hex => absurd (List.mem_singleton_self _) hex)

theorem within_photoChain (c : Cell) (sa wa g : ℚ) (hres : resWithin c [])
    (hsa0 : 0 ≤ sa) (hsas : sa ≤ c.resources .SUNLIGHT)
    (hwa0 : 0 ≤ wa) (hwaw : wa ≤ c.resources .WATER) (hg : 0 ≤ g) :
    resWithin (((c.setResource .SUNLIGHT (c.resources .SUNLIGHT - sa)).setResource .WATER
        ((c.setResource .SUNLIGHT (c.resources .SUNLIGHT - sa)).resources .WATER - wa)).setResource
          .OXYGEN (((c.setResource .SUNLIGHT (c.resources .SUNLIGHT - sa)).setResource .WATER
            ((c.setResource .SUNLIGHT
              (c.resources .SUNLIGHT - sa)).resources .WATER - wa)).resources .OXYGEN + g))
      [.OXYGEN] := by
  intro r
  cases r with
  | SUNLIGHT =>
      constructor
      · simp +decide only [Cell.setResource, setRes_self, setRes_ne]
        linarith
      · intro hex
        simp +decide only [Cell.setResource, setRes_self, setRes_ne]
        have := (hres .SUNLIGHT).2 (List.not_mem_nil _)
        linarith
  | WATER =>
      constructor
      · simp +decide only [Cell.setResource, setRes_self, setRes_ne]
        linarith
      · intro hex
        simp +decide only [Cell.setResource, setRes_self, setRes_ne]
        have := (hres .WATER).2 (List.not_mem_nil _)
        linarith
  | OXYGEN =>
      constructor
      · simp +decide only [Cell.setResource, setRes_self, setRes_ne]
        have := (hres .OXYGEN).1
        linarith
      · intro hex
        exact absurd (List.mem_singleton_self _) hex
  | MINERALS =>
      constructor
      · simp +decide only [Cell.setResource, setRes_self, setRes_ne]
        exact (hres .MINERALS).1
      · intro hex
        simp +decide only [Cell.setResource, setRes_self, setRes_ne]
        exact (hres .MINERALS).2 (List.not_mem_nil _)
  | CO2 =>
      constructor
      · simp +decide only [Cell.setResource, setRes_self, setRes_ne]
        exact (hres .CO2).1
      · intro hex
        simp +decide only [Cell.setResource, setRes_self, setRes_ne]
        exact (hres .CO2).2 (List.not_mem_nil _)
  | ORGANIC_MATTER =>
      constructor
      · simp +decide only [Cell.setResource, setRes_self, setRes_ne]
        exact (hres .ORGANIC_MATTER).1
      · intro hex
        simp +decide only [Cell.setResource, setRes_self, setRes_ne]
        exact (hres .ORGANIC_MATTER).2 (List.not_mem_nil _)

theorem interact_cell_within (o : Organism) (cell? : Option Cell) (dt : ℚ)
    (hcell : ∀ c, cell? = some c → resWithin c []) (hdt : 0 ≤ dt)
    (hm : 0 ≤ o.phenotype.metabolism_rate) (hs : 0 ≤ o.phenotype.strength) :
    ∀ c', (o.interactWithEnvironment cell? dt).2 = some c' →
      resWithin c' [.OXYGEN] := by
  unfold Organism.interactWithEnvironment
  split
  · intro c' h
    exact absurd h (by simp)
  · rename_i cell
    have hres : resWithin cell [] := hcell cell rfl
    lift_lets
    extract_lets sAbs wAbs eGp oP cP1 cP2 cP3 pEn cons eGh oH cH oc o1 c1 wCon oW cW
    have hsa0 : 0 ≤ sAbs := le_min (mul_nonneg hdt (by norm_num)) (hres .SUNLIGHT).1
    have hsas : sAbs ≤ cell.resources .SUNLIGHT := min_le_right _ _
    have hwa0 : 0 ≤ wAbs := le_min hdt (hres .WATER).1
    have hwaw : wAbs ≤ cell.resources .WATER := min_le_right _ _
    have hg : 0 ≤ eGp * (2/10) :=
      mul_nonneg (mul_nonneg (mul_nonneg hsa0 (by norm_num)) hm) (by norm_num)
    have hcons0 : 0 ≤ cons :=
      le_min (mul_nonneg (mul_nonneg hdt (by norm_num)) hs)
        (mul_nonneg (hres .ORGANIC_MATTER).1 (by norm_num))
    have hconsle : cons ≤ pEn := min_le_right _ _
    have hA : resWithin c1 [.OXYGEN] := by
      unfold c1 oc
      split
      · split
        · exact within_photoChain cell sAbs wAbs (eGp * (2/10)) hres hsa0 hsas hwa0 hwaw hg
        · exact resWithin_of_nil hres _
      · split
        · split
          · refine resWithin_of_nil (resWithin_set _ _ _ _ hres ?_ ?_) _
            · have hdiv : cons / (5/10) = cons * 2 := by ring
              have hpe : pEn = cell.resources .ORGANIC_MATTER * (5/10) := rfl
              rw [hdiv]
              nlinarith [hconsle, hcons0]
            · intro hex
              exact le_trans (sub_le_self _ (div_nonneg hcons0 (by norm_num)))
                ((hres .ORGANIC_MATTER).2 (List.not_mem_nil _))
          · exact resWithin_of_nil hres _
        · exact resWithin_of_nil hres _
    intro c' hc'
    split at hc'
    · have he : cW = c' := Option.some.inj hc'
      subst he
      exact resWithin_set _ _ _ _ hA
        (sub_nonneg.2 (min_le_right _ _))
        (fun _ => le_trans
          (sub_le_self _ (le_min (mul_nonneg hdt (by norm_num)) (hA .WATER).1))
          ((hA .WATER).2 (by decide)))
    · have he : c1 = c' := Option.some.inj hc'
      subst he
      exact hA

/-- C1 amended: under nonnegative time step, rain, biomass and cell
parameters, the three cited operations keep every resource nonnegative, and
keep every resource within its capacity except exactly those the source
writes against hard-coded constants instead of the cell's capacity: the
centre cell's OXYGEN (constant cap 100, line 3786) and CO2 (constant floor
0.1 at line 3781, constant cap 1.0 at line 3808) under `WorldCell.update`,
CO2 (constant cap 1.0, line 3890) under `add_decomposition`, and OXYGEN
(uncapped deposit, line 1284) under `interact_with_environment`.  Neighbour
cells always stay within `[0, capacity]`.  The counterexample shows the
excepted resources really do exceed the capacities the program generates. -/
theorem C1_resource_bounds_amended (c : Cell) (dt : ℚ) (ns : List Cell)
    (d : CellUpdateDraws) (b : ℚ) (o : Organism) (cell? : Option Cell)
    (hc : resWithin c []) (hp : cellParamsOK c) (hns : ∀ n ∈ ns, resWithin n [])
    (hdt : 0 ≤ dt) (hpre : 0 ≤ d.precipAmount) (hb : 0 ≤ b)
    (hcell : ∀ x, cell? = some x → resWithin x [])
    (hm : 0 ≤ o.phenotype.metabolism_rate) (hs : 0 ≤ o.phenotype.strength) :
    (resWithin (c.update dt ns d).1 [.OXYGEN, .CO2] ∧
      ∀ n ∈ (c.update dt ns d).2, resWithin n []) ∧
    resWithin (c.addDecomposition b) [.CO2] ∧
    (∀ c', (o.interactWithEnvironment cell? dt).2 = some c' →
      resWithin c' [.OXYGEN]) :=
  ⟨update_within c dt ns d hc hp hns hdt hpre,
   addDecomposition_within c b hc hp hb,
   interact_cell_within o cell? dt hcell hdt hm hs⟩

/-- Witness for the C1 amended theorem: a full update tick and a
decomposition deposit on the realistically-capacitated example cell keep
everything nonnegative and everything but the constant-capped OXYGEN/CO2
within capacity. -/
theorem C1_resource_bounds_amended_witness :
    resWithin ((cellReal.update 1 [] ⟨1, 0⟩).1) [.OXYGEN, .CO2] ∧
    resWithin (cellReal.addDecomposition 5) [.CO2] := by
  have hc : resWithin cellReal [] := by
    intro r
    cases r <;> exact ⟨by norm_num [cellReal], fun _ => by norm_num [cellReal]⟩
  have hp : cellParamsOK cellReal := by
    constructor <;> intro r <;> cases r <;> norm_num [cellReal]
  have h := C1_resource_bounds_amended cellReal 1 [] ⟨1, 0⟩ 5 plantEx none hc hp
    (fun n hn => absurd hn (List.not_mem_nil n)) (by norm_num) (by norm_num)
    (by norm_num) (fun x hx => nomatch hx)
    (by norm_num [plantEx, orgEx, phenotypeEx]) (by norm_num [plantEx, orgEx, phenotypeEx])
  exact ⟨h.1.1, h.2.1⟩

/-! ### C2 support lemmas and theorems -/

theorem updOK_maturation (o : Organism) (dt : ℚ) (h : updOK o) :
    updOK (maturationStep o dt) := by
  unfold maturationStep; split <;> exact h

theorem updOK_metabolism (o : Organism) (dt : ℚ) (h : updOK o) (hdt : 0 ≤ dt) :
    updOK (metabolismStep o dt) := by
  obtain ⟨h1, h2, h3, h4, h5, h6, h7⟩ := h
  exact ⟨h1, h2, le_max_left 0 _,
    max_le (le_trans h3 h4) (le_trans (sub_le_self _ (mul_nonneg h5 hdt)) h4), h5, h6, h7⟩

theorem updOK_wasteHealth (o : Organism) (dt : ℚ) (h : updOK o) (hdt : 0 ≤ dt) :
    updOK (wasteHealthStep o dt) := by
  obtain ⟨h1, h2, h3, h4, h5, h6, h7⟩ := h
  unfold wasteHealthStep
  split
  · rename_i hc
    refine ⟨le_max_left 0 _, max_le (by norm_num) ?_, h3, h4, h5, h6, h7⟩
    have hX : 0 ≤ (o.waste - 50) / 50 * dt * 2 :=
      mul_nonneg (mul_nonneg (div_nonneg (by linarith) (by norm_num)) hdt) (by norm_num)
    linarith
  · exact ⟨h1, h2, h3, h4, h5, h6, h7⟩

theorem updOK_hydrationHealth (o : Organism) (dt : ℚ) (h : updOK o) (hdt : 0 ≤ dt) :
    updOK (hydrationHealthStep o dt) := by
  obtain ⟨h1, h2, h3, h4, h5, h6, h7⟩ := h
  unfold hydrationHealthStep
  split
  · rename_i hc
    refine ⟨le_max_left 0 _, max_le (by norm_num) ?_, h3, h4, h5, h6, h7⟩
    have hX : 0 ≤ (20 - o.hydration) / 20 * dt * 5 :=
      mul_nonneg (mul_nonneg (div_nonneg (by linarith) (by norm_num)) hdt) (by norm_num)
    linarith
  · exact ⟨h1, h2, h3, h4, h5, h6, h7⟩

theorem updOK_hunger (o : Organism) (dt : ℚ) (h : updOK o) (hdt : 0 ≤ dt) :
    updOK (hungerStep o dt) := by
  obtain ⟨h1, h2, h3, h4, h5, h6, h7⟩ := h
  unfold hungerStep
  split
  · refine ⟨le_max_left 0 _, max_le (by norm_num) ?_, h3, h4, h5, h6, h7⟩
    have hX : 0 ≤ dt * 5 := mul_nonneg hdt (by norm_num)
    linarith
  · exact ⟨h1, h2, h3, h4, h5, h6, h7⟩

theorem updOK_recovery (o : Organism) (dt : ℚ) (h : updOK o) (hdt : 0 ≤ dt) :
    updOK (recoveryStep o dt) := by
  obtain ⟨h1, h2, h3, h4, h5, h6, h7⟩ := h
  unfold recoveryStep
  split
  · exact ⟨le_min (by norm_num) (add_nonneg h1 (mul_nonneg hdt h6)), min_le_left _ _,
      h3, h4, h5, h6, h7⟩
  · exact ⟨h1, h2, h3, h4, h5, h6, h7⟩

theorem updOK_cooldown (o : Organism) (dt : ℚ) (h : updOK o) :
    updOK (cooldownStep o dt) := by
  unfold cooldownStep; split <;> exact h

theorem updOK_aging (o : Organism) (dt : ℚ) (h : updOK o) : updOK (agingStep o dt) := h

theorem updOK_waste (o : Organism) (dt : ℚ) (h : updOK o) : updOK (wasteStep o dt) := h

theorem updOK_hydration (o : Organism) (dt : ℚ) (h : updOK o) :
    updOK (hydrationStep o dt) := h

theorem updOK_ready (o : Organism) (h : updOK o) : updOK (readyStep o) := h

theorem updOK_movement (o : Organism) (worldW worldH dt : ℚ) (h : updOK o) :
    updOK (movementStep o worldW worldH dt) := h

theorem updOK_death (o : Organism) (h : updOK o) : updOK (deathStep o) := by
  unfold deathStep; split <;> exact h

theorem updOK_interact (o : Organism) (cell? : Option Cell) (dt : ℚ) (h : updOK o)
    (hdt : 0 ≤ dt) (hcell : ∀ c, cell? = some c → ∀ r, 0 ≤ c.resources r) :
    updOK (o.interactWithEnvironment cell? dt).1 := by
  obtain ⟨h1, h2, h3, h4, h5, h6, h7⟩ := h
  unfold Organism.interactWithEnvironment
  split
  · exact ⟨h1, h2, h3, h4, h5, h6, h7⟩
  · rename_i cell
    have hres : ∀ r, 0 ≤ cell.resources r := hcell cell rfl
    have hcap : (0 : ℚ) ≤ o.phenotype.energy_capacity := le_trans h3 h4
    lift_lets
    extract_lets sAbs wAbs eGp oP cP1 cP2 cP3 pEn cons eGh oH cH oc o1 c1 wCon oW cW
    have hoc : updOK oc.1 := by
      unfold oc
      split
      · split
        · refine ⟨h1, h2, ?_, min_le_left _ _, h5, h6, h7⟩
          exact le_min hcap (add_nonneg h3 (mul_nonneg (mul_nonneg
            (le_min (mul_nonneg hdt (by norm_num)) (hres _)) (by norm_num)) h5))
        · exact ⟨h1, h2, h3, h4, h5, h6, h7⟩
      · split
        · split
          · refine ⟨h1, h2, ?_, min_le_left _ _, h5, h6, h7⟩
            refine le_min hcap (add_nonneg h3 (mul_nonneg (le_min
              (mul_nonneg (mul_nonneg hdt (by norm_num)) h7) ?_) h5))
            exact mul_nonneg (hres _) (by norm_num)
          · exact ⟨h1, h2, h3, h4, h5, h6, h7⟩
        · exact ⟨h1, h2, h3, h4, h5, h6, h7⟩
    split
    · exact hoc
    · exact hoc

/-- C2 amended: along `Organism.update` — ageing, maturation, metabolism,
waste, dehydration, hunger, recovery, cooldown, readiness, death, movement
and the environment interaction — health stays in [0, 100] and energy stays
in [0, phenotype.energy_capacity], given a nonnegative time step, in-range
starting values, nonnegative metabolism/immune/strength traits and
nonnegative cell resources.  The counterexample shows the claim fails for
`_attack` (no lower clamp on the victim's health) and for
`_bacterial_conjugation` (unchecked donor energy cost). -/
theorem C2_update_amended (o : Organism) (worldW worldH dt : ℚ) (cell? : Option Cell)
    (h : updOK o) (hdt : 0 ≤ dt)
    (hcell : ∀ c, cell? = some c → ∀ r, 0 ≤ c.resources r) :
    0 ≤ (o.update worldW worldH cell? dt).1.health ∧
    (o.update worldW worldH cell? dt).1.health ≤ 100 ∧
    0 ≤ (o.update worldW worldH cell? dt).1.energy ∧
    (o.update worldW worldH cell? dt).1.energy
      ≤ (o.update worldW worldH cell? dt).1.phenotype.energy_capacity := by
  have key : updOK (o.update worldW worldH cell? dt).1 := by
    unfold Organism.update
    split
    · exact ⟨h.1, h.2.1, h.2.2.1, h.2.2.2.1, h.2.2.2.2.1, h.2.2.2.2.2.1, h.2.2.2.2.2.2⟩
    · refine updOK_interact _ _ _ ?_ hdt hcell
      refine updOK_movement _ _ _ _ (updOK_death _ (updOK_ready _ ?_))
      refine updOK_cooldown _ _ (updOK_recovery _ _ ?_ hdt)
      refine updOK_hunger _ _ ?_ hdt
      refine updOK_hydrationHealth _ _ ?_ hdt
      refine updOK_hydration _ _ (updOK_wasteHealth _ _ ?_ hdt)
      refine updOK_waste _ _ (updOK_metabolism _ _ ?_ hdt)
      exact updOK_maturation _ _ (updOK_aging _ _ h)
  exact ⟨key.1, key.2.1, key.2.2.1, key.2.2.2.1⟩

/-- Witness for the C2 amended theorem: a full tick of the example plant on
no cell keeps health in [0, 100] and energy within capacity. -/
theorem C2_update_amended_witness :
    updOK plantEx ∧
    (0 ≤ ((plantEx.update 100 100 none 1).1).health ∧
     ((plantEx.update 100 100 none 1).1).health ≤ 100 ∧
     0 ≤ ((plantEx.update 100 100 none 1).1).energy ∧
     ((plantEx.update 100 100 none 1).1).energy
       ≤ ((plantEx.update 100 100 none 1).1).phenotype.energy_capacity) := by
  have h : updOK plantEx := by norm_num [updOK, plantEx, orgEx, phenotypeEx]
  exact ⟨h, C2_update_amended plantEx 100 100 1 none h (by norm_num)
    (fun c hc => nomatch hc)⟩

/-! ### C6 support lemmas and theorems -/

theorem length_insertByAdaptation (x : Organism) (l : List Organism) :
    (insertByAdaptation x l).length = l.length + 1 := by
  induction l with
  | nil => rfl
  | cons y t ih =>
      simp only [insertByAdaptation]
      split
      · simp [ih]
      · simp

theorem length_sortByAdaptation (l : List Organism) :
    (sortByAdaptation l).length = l.length := by
  induction l with
  | nil => rfl
  | cons y t ih =>
      show (insertByAdaptation y (sortByAdaptation t)).length = t.length + 1
      rw [length_insertByAdaptation, ih]

theorem mem_of_mem_insertByAdaptation {y x : Organism} {l : List Organism}
    (h : y ∈ insertByAdaptation x l) : y = x ∨ y ∈ l := by
  induction l with
  | nil => exact Or.inl (List.mem_singleton.mp h)
  | cons z t ih =>
      simp only [insertByAdaptation] at h
      split at h
      · rcases List.mem_cons.mp h with h1 | h2
        · exact Or.inr (List.mem_cons.mpr (Or.inl h1))
        · rcases ih h2 with h3 | h4
          · exact Or.inl h3
          · exact Or.inr (List.mem_cons.mpr (Or.inr h4))
      · rcases List.mem_cons.mp h with h1 | h2
        · exact Or.inl h1
        · exact Or.inr h2

theorem mem_of_mem_sortByAdaptation {y : Organism} {l : List Organism}
    (h : y ∈ sortByAdaptation l) : y ∈ l := by
  induction l with
  | nil => exact absurd h (List.not_mem_nil y)
  | cons z t ih =>
      have h2 : y ∈ insertByAdaptation z (sortByAdaptation t) := h
      rcases mem_of_mem_insertByAdaptation h2 with h3 | h4
      · exact List.mem_cons.mpr (Or.inl h3)
      · exact List.mem_cons.mpr (Or.inr (ih h4))

theorem removeOrganism_organisms_of_found (w : WorldState) (oid : String) (y : Organism)
    (hf : w.organisms.find? (fun q => q.id = oid) = some y) :
    (w.removeOrganism oid).organisms = w.organisms.filter (fun q => q.id ≠ oid) := by
  simp only [WorldState.removeOrganism, hf]
  split
  · split
    · rfl
    · rfl
  · rfl

theorem removeOrganism_length_lt (w : WorldState) (oid : String) (x : Organism)
    (hx : x ∈ w.organisms) (hid : x.id = oid) :
    (w.removeOrganism oid).organisms.length < w.organisms.length := by
  have hsome : (w.organisms.find? (fun q => q.id = oid)).isSome := by
    rw [List.find?_isSome]
    exact ⟨x, hx, by simp [hid]⟩
  obtain ⟨y, hy⟩ := Option.isSome_iff_exists.mp hsome
  rw [removeOrganism_organisms_of_found w oid y hy]
  apply List.length_filter_lt_length_iff_exists.mpr
  exact ⟨x, hx, by simp [hid]⟩

theorem addOrganism_organisms (w : WorldState) (o : Organism) :
    (w.addOrganism o).organisms =
      (if w.organisms.length ≥ w.max_organisms then w.cullWeakest 1 else w).organisms ++ [o] := by
  simp only [WorldState.addOrganism]
  split
  · rfl
  · rfl

theorem cullWeakest_length_lt (w : WorldState)
    (halive : ∀ q ∈ w.organisms, q.is_alive = true)
    (hlen2 : 2 ≤ w.organisms.length) :
    (w.cullWeakest 1).organisms.length < w.organisms.length := by
  have hfilter : w.organisms.filter (fun q => q.is_alive) = w.organisms :=
    List.filter_eq_self.mpr halive
  simp only [WorldState.cullWeakest]
  rw [if_neg (by omega)]
  rw [hfilter]
  have hslen : (sortByAdaptation w.organisms).length = w.organisms.length :=
    length_sortByAdaptation w.organisms
  obtain ⟨h, t, hht⟩ := List.exists_cons_of_ne_nil
    (show sortByAdaptation w.organisms ≠ [] by
      intro hnil; rw [hnil] at hslen; simp at hslen; omega)
  rw [hht]
  show ((List.take 1 (h :: t)).foldl (fun w o => w.removeOrganism o.id) w).organisms.length
      < w.organisms.length
  simp only [List.take_succ_cons, List.take_zero, List.foldl_cons, List.foldl_nil]
  have hmem : h ∈ w.organisms := mem_of_mem_sortByAdaptation (hht ▸ List.mem_cons_self h t)
  exact removeOrganism_length_lt w h.id h hmem rfl

/-- C6 amended: when every organism in the world is alive, the cap is at
least 2 and the organism count is within the cap, `add_organism` keeps the
count within the cap (at the cap it first culls one live weakest organism).
The counterexample shows the invariant fails when dead organisms occupy the
cap, because `_cull_weakest_organisms` only ever removes live organisms. -/
theorem C6_cap_amended (w : WorldState) (o : Organism)
    (halive : ∀ q ∈ w.organisms, q.is_alive = true)
    (hcap : 2 ≤ w.max_organisms)
    (hlen : w.organisms.length ≤ w.max_organisms) :
    (w.addOrganism o).organisms.length ≤ w.max_organisms := by
  rw [addOrganism_organisms, List.length_append]
  by_cases hge : w.organisms.length ≥ w.max_organisms
  · rw [if_pos hge]
    have hlt := cullWeakest_length_lt w halive (by omega)
    simp only [List.length_cons, List.length_nil]
    omega
  · rw [if_neg hge]
    simp only [List.length_cons, List.length_nil]
    omega

/-- Witness for the C6 amended theorem: a world at its cap of 2 with both
residents alive accepts a third organism without exceeding the cap. -/
theorem C6_cap_amended_witness :
    (worldCapLive.addOrganism (orgEx "c" "C" .HERBIVORE genomeA 1)).organisms.length ≤ 2 :=
  C6_cap_amended worldCapLive (orgEx "c" "C" .HERBIVORE genomeA 1)
    (by decide) (by decide) (by decide)

/-! ### C3 support lemmas and theorems -/

theorem getKey?_setKey_self {β : Type} (l : List (String × β)) (k : String) (v : β) :
    getKey? (setKey l k v) k = some v := by
  induction l with
  | nil => simp [setKey, getKey?]
  | cons p t ih =>
      obtain ⟨k', v'⟩ := p
      by_cases h : k' = k
      · simp [setKey, getKey?, h]
      · simp only [setKey, if_neg h, getKey?]
        exact ih

theorem getKey?_setKey_ne {β : Type} (l : List (String × β)) (k s : String) (v : β)
    (hne : s ≠ k) : getKey? (setKey l k v) s = getKey? l s := by
  induction l with
  | nil =>
      simp only [setKey, getKey?]
      rw [if_neg (fun h => hne h.symm)]
  | cons p t ih =>
      obtain ⟨k', v'⟩ := p
      by_cases h : k' = k
      · subst h
        simp only [setKey, if_pos rfl, getKey?]
        rw [if_neg (fun h2 => hne h2.symm), if_neg (fun h2 => hne h2.symm)]
      · simp only [setKey, if_neg h, getKey?]
        by_cases h2 : k' = s
        · rw [if_pos h2, if_pos h2]
        · rw [if_neg h2, if_neg h2]
          exact ih

theorem extinctStays_refl (reg : List (String × SpeciesRecord)) : extinctStays reg reg :=
  fun _ r h he => ⟨r, h, he⟩

theorem extinctStays_trans {a b c : List (String × SpeciesRecord)}
    (h1 : extinctStays a b) (h2 : extinctStays b c) : extinctStays a c := by
  intro s r hs he
  obtain ⟨q, hq, hqe⟩ := h1 s r hs he
  exact h2 s q hq hqe

theorem extinctStays_setKey (reg : List (String × SpeciesRecord)) (k : String)
    (v : SpeciesRecord)
    (hv : ∀ r, getKey? reg k = some r → r.is_extinct = true → v.is_extinct = true) :
    extinctStays reg (setKey reg k v) := by
  intro s r hs he
  by_cases h : s = k
  · subst h
    exact ⟨v, getKey?_setKey_self reg s v, hv r hs he⟩
  · exact ⟨r, (getKey?_setKey_ne reg k s v h).trans hs, he⟩

theorem extinctStays_remove (w : WorldState) (oid : String) :
    extinctStays w.species_registry ((w.removeOrganism oid).species_registry) := by
  unfold WorldState.removeOrganism
  split
  · exact extinctStays_refl _
  · rename_i o hfind
    split
    · split
      · rename_i rec0 hreg
        apply extinctStays_setKey
        intro r hr he
        rw [hreg] at hr
        cases hr
        split
        · rfl
        · exact he
      · exact extinctStays_refl _
    · exact extinctStays_refl _

theorem extinctStays_foldl_remove (l : List Organism) :
    ∀ w : WorldState, extinctStays w.species_registry
      ((l.foldl (fun acc o => acc.removeOrganism o.id) w).species_registry) := by
  induction l with
  | nil => intro w; exact extinctStays_refl _
  | cons o t ih =>
      intro w
      exact extinctStays_trans (extinctStays_remove w o.id) (ih (w.removeOrganism o.id))

theorem extinctStays_cull (w : WorldState) (n : ℕ) :
    extinctStays w.species_registry ((w.cullWeakest n).species_registry) := by
  unfold WorldState.cullWeakest
  split
  · exact extinctStays_refl _
  · exact extinctStays_foldl_remove _ w

theorem extinctStays_add (w : WorldState) (o : Organism) :
    extinctStays w.species_registry ((w.addOrganism o).species_registry) := by
  simp only [WorldState.addOrganism]
  by_cases hc : w.organisms.length ≥ w.max_organisms
  · rw [if_pos hc]
    refine extinctStays_trans (extinctStays_cull w 1) ?_
    split
    · rename_i hnone
      exact extinctStays_setKey _ _ _ (fun r hr he => by rw [hnone] at hr; cases hr)
    · rename_i rec0 hsome
      refine extinctStays_setKey _ _ _ (fun r hr he => ?_)
      rw [hsome] at hr
      cases hr
      exact he
  · rw [if_neg hc]
    split
    · rename_i hnone
      exact extinctStays_setKey _ _ _ (fun r hr he => by rw [hnone] at hr; cases hr)
    · rename_i rec0 hsome
      refine extinctStays_setKey _ _ _ (fun r hr he => ?_)
      rw [hsome] at hr
      cases hr
      exact he

/-- C3 amended: removing a still-live organism through `_remove_organism`
decrements its species count and, exactly when the count reaches zero, marks
the record extinct and increments `extinction_count`; removing an
already-dead organism (the decomposition path) leaves the registry and the
extinction counter untouched; and the extinct flag, once set, is never
cleared by `_remove_organism` or `add_organism`. -/
theorem C3_extinction_amended (w : WorldState) (oid : String) (o x : Organism)
    (r : SpeciesRecord) :
    (w.organisms.find? (fun q => q.id = oid) = some o → o.is_alive = true →
      getKey? w.species_registry o.species_id = some r →
      getKey? ((w.removeOrganism oid).species_registry) o.species_id
          = some ⟨r.count - 1, if r.count - 1 ≤ 0 then true else r.is_extinct⟩ ∧
      (w.removeOrganism oid).extinction_count
          = (if r.count - 1 ≤ 0 then w.extinction_count + 1 else w.extinction_count)) ∧
    (w.organisms.find? (fun q => q.id = oid) = some o → o.is_alive = false →
      (w.removeOrganism oid).species_registry = w.species_registry ∧
      (w.removeOrganism oid).extinction_count = w.extinction_count) ∧
    extinctStays w.species_registry ((w.removeOrganism oid).species_registry) ∧
    extinctStays w.species_registry ((w.addOrganism x).species_registry) := by
  refine ⟨?_, ?_, extinctStays_remove w oid, extinctStays_add w x⟩
  · intro hfind halive hreg
    simp only [WorldState.removeOrganism, hfind, halive, hreg]
    rw [if_pos trivial]
    refine ⟨?_, rfl⟩
    simp only [getKey?_setKey_self]
    split <;> rfl
  · intro hfind hdead
    simp only [WorldState.removeOrganism, hfind, hdead]
    exact ⟨rfl, rfl⟩

/-- Witness for the C3 amended theorem: removing the live sole member of
species `X` marks the record `⟨0, extinct⟩` and bumps the counter to 1. -/
theorem C3_extinction_amended_witness :
    getKey? ((worldSoleLive.removeOrganism "x").species_registry) "X" = some ⟨0, true⟩ ∧
    (worldSoleLive.removeOrganism "x").extinction_count = 1 := by
  have h := (C3_extinction_amended worldSoleLive "x" (orgEx "x" "X" .HERBIVORE genomeA 1)
    (orgEx "x" "X" .HERBIVORE genomeA 1) ⟨1, false⟩).1 rfl rfl rfl
  exact ⟨h.1, h.2⟩

/-! ### C7 support lemmas -/

theorem getKey?_append_cons {β : Type} (pre : List (String × β)) (k : String) (v : β)
    (rest : List (String × β)) (hk : k ∉ pre.map Prod.fst) :
    getKey? (pre ++ (k, v) :: rest) k = some v := by
  induction pre with
  | nil => simp [getKey?]
  | cons p t ih =>
      obtain ⟨k', v'⟩ := p
      simp only [List.map_cons, List.mem_cons, not_or] at hk
      simp only [List.cons_append, getKey?]
      rw [if_neg (fun h => hk.1 h.symm)]
      exact ih hk.2

theorem setKey_append {β : Type} (pre : List (String × β)) (k : String) (v : β)
    (hk : k ∉ pre.map Prod.fst) :
    setKey pre k v = pre ++ [(k, v)] := by
  induction pre with
  | nil => rfl
  | cons p t ih =>
      obtain ⟨k', v'⟩ := p
      simp only [List.map_cons, List.mem_cons, not_or] at hk
      simp only [setKey, List.cons_append]
      rw [if_neg (fun h => hk.1 h.symm)]
      rw [ih hk.2]

theorem Gene.mutate_zero (g : Gene) (d : GeneMutDraws) (hr : g.mutation_rate = 0)
    (hu : 0 ≤ d.u) : g.mutate d = g := by
  simp only [Gene.mutate]
  rw [if_neg (show ¬ d.u < g.mutation_rate by rw [hr]; exact not_lt.2 hu)]

theorem union_of_subset (l1 l2 : List String) (h : ∀ a ∈ l1, a ∈ l2) : l1 ∪ l2 = l2 := by
  induction l1 with
  | nil => simp
  | cons a t ih =>
      rw [List.cons_union, ih (fun b hb => h b (List.mem_cons_of_mem a hb))]
      exact List.insert_of_mem (h a (List.mem_cons_self a t))

theorem unionKeys_self (l : List String) (h : l.Nodup) : unionKeys l l = l := by
  unfold unionKeys
  rw [List.dedup_append, h.dedup]
  exact union_of_subset l l (fun a ha => ha)

theorem foldl_addGene_rebuild (genes : List (String × Gene))
    (step : Chromosome → String → Chromosome)
    (hstep : ∀ acc (p : String × Gene), p ∈ genes → getKey? genes p.1 = some p.2 →
        step acc p.1 = acc.addGene p.2)
    (hnd : (genes.map Prod.fst).Nodup)
    (hid : ∀ p ∈ genes, (p.2).gene_id = p.1) :
    ∀ suf pre, genes = pre ++ suf →
      (suf.map Prod.fst).foldl step (⟨pre⟩ : Chromosome) = ⟨genes⟩ := by
  intro suf
  induction suf with
  | nil => intro pre h; simp [h]
  | cons p rest ih =>
      intro pre h
      obtain ⟨k, g⟩ := p
      have hkpre : k ∉ pre.map Prod.fst := by
        have hnd2 := h ▸ hnd
        rw [List.map_append, List.nodup_append] at hnd2
        exact fun hmem => hnd2.2.2 hmem (by simp)
      have hget : getKey? genes k = some g := by
        rw [h]; exact getKey?_append_cons pre k g rest hkpre
      have hmem : (k, g) ∈ genes := by rw [h]; simp
      simp only [List.map_cons, List.foldl_cons]
      rw [hstep ⟨pre⟩ (k, g) hmem hget]
      have hgid : g.gene_id = k := hid (k, g) hmem
      have : Chromosome.addGene ⟨pre⟩ g = ⟨pre ++ [(k, g)]⟩ := by
        simp only [Chromosome.addGene, hgid]
        rw [setKey_append pre k g hkpre]
      rw [this]
      exact ih (pre ++ [(k, g)]) (by rw [h, List.append_assoc]; rfl)

theorem combine_self (c : Chromosome) (coin : String → ℚ) (ds : String → GeneMutDraws)
    (hWF : c.WF) (hzr : ∀ p ∈ c.genes, (p.2).mutation_rate = 0)
    (hu : ∀ id, 0 ≤ (ds id).u) :
    Chromosome.combine c c coin ds = c := by
  obtain ⟨genes⟩ := c
  have hWF' : ((⟨genes⟩ : Chromosome).keys).Nodup := hWF.1
  simp only [Chromosome.keys] at hWF'
  unfold Chromosome.combine
  rw [show (⟨genes⟩ : Chromosome).keys = genes.map Prod.fst from rfl] at *
  rw [unionKeys_self _ hWF']
  refine (foldl_addGene_rebuild genes _ ?_ hWF' hWF.2 genes [] rfl)
  intro acc p hmemp hgetp
  simp only [hgetp]
  rw [Gene.mutate_zero (p.2) _ (hzr p hmemp) (hu p.1)]
  rw [ite_self]

theorem foldl_append_take (cs : List Chromosome)
    (step : List Chromosome → ℕ → List Chromosome)
    (hstep : ∀ acc i (h : i < cs.length), step acc i = acc ++ [cs.get ⟨i, h⟩]) :
    ∀ k, k ≤ cs.length → (List.range k).foldl step [] = cs.take k := by
  intro k
  induction k with
  | zero => intro _; rfl
  | succ n ih =>
      intro hk
      rw [List.range_succ, List.foldl_append]
      rw [ih (Nat.le_of_succ_le hk)]
      simp only [List.foldl_cons, List.foldl_nil]
      rw [hstep _ n (Nat.lt_of_succ_le hk)]
      rw [← List.concat_eq_append]
      exact List.take_concat_get cs n (Nat.lt_of_succ_le hk)

theorem reproduce_self_id (a : Genome) (d : ReproDraws)
    (hWF : a.WF) (hzr : a.zeroRate)
    (hano : 2/100 ≤ d.anomalyU) (hdup : 5/1000 ≤ d.dupU) (hdel : 5/1000 ≤ d.delU)
    (hu : ∀ i id, 0 ≤ (d.combineMut i id).u) :
    Genome.reproduce a a d = a := by
  obtain ⟨cs⟩ := a
  simp only [Genome.reproduce, min_self]
  rw [if_neg (show ¬((⟨cs⟩ : Genome).chromosomes.length > (⟨cs⟩ : Genome).chromosomes.length) from lt_irrefl _)]
  simp only [List.drop_length, List.enum_nil, List.map_nil, List.append_nil]
  rw [if_neg (fun hc => absurd hc.1 (not_lt.2 hano))]
  refine congrArg Genome.mk ?_
  refine ((foldl_append_take cs _ ?_ cs.length le_rfl).trans (List.take_length cs))
  intro acc i h
  rw [if_neg (fun hc => absurd hc.1.1 (not_lt.2 hdel))]
  simp only [List.get?_eq_get h]
  rw [if_neg (fun hc => absurd hc.1 (not_lt.2 hdup))]
  rw [combine_self _ _ _ (hWF _ (List.get_mem cs i h)) (hzr _ (List.get_mem cs i h)) (hu i)]

/-- C7 amended: for every well-formed genome `a` whose gene mutation rates
are all zero, and every outcome of the draws in which the chromosomal-anomaly
draw (p = 0.02), the chromosome-duplication draw (p = 0.005) and the
chromosome-deletion draw (p = 0.005) all fail (and the per-gene Bernoulli
draws are genuine probabilities, i.e. nonnegative), `Genome.reproduce a a`
returns a genome value-equal to `a`. -/
theorem C7_reproduce_amended (a : Genome) (d : ReproDraws)
    (hWF : a.WF) (hzr : a.zeroRate)
    (hano : 2/100 ≤ d.anomalyU) (hdup : 5/1000 ≤ d.dupU) (hdel : 5/1000 ≤ d.delU)
    (hu : ∀ i id, 0 ≤ (d.combineMut i id).u) :
    Genome.valEq (Genome.reproduce a a d) a := by
  rw [reproduce_self_id a d hWF hzr hano hdup hdel hu]
  exact ⟨rfl, fun i k => rfl⟩

/-- Witness for the C7 amended theorem: the two-chromosome zero-rate genome
`genomeTwo` with the draw record `reproDrawsEx`, whose rare draws all fail. -/
theorem C7_reproduce_amended_witness :
    Genome.WF genomeTwo ∧ Genome.zeroRate genomeTwo ∧
    (2/100 : ℚ) ≤ reproDrawsEx.anomalyU ∧ (5/1000 : ℚ) ≤ reproDrawsEx.dupU ∧
    (5/1000 : ℚ) ≤ reproDrawsEx.delU ∧ (∀ i id, 0 ≤ (reproDrawsEx.combineMut i id).u) ∧
    Genome.valEq (Genome.reproduce genomeTwo genomeTwo reproDrawsEx) genomeTwo := by
  have hWF : Genome.WF genomeTwo := by decide
  have hzr : Genome.zeroRate genomeTwo := by decide
  have hano : (2/100 : ℚ) ≤ reproDrawsEx.anomalyU := by norm_num [reproDrawsEx]
  have hdup : (5/1000 : ℚ) ≤ reproDrawsEx.dupU := by norm_num [reproDrawsEx]
  have hdel : (5/1000 : ℚ) ≤ reproDrawsEx.delU := by norm_num [reproDrawsEx]
  have hu : ∀ i id, 0 ≤ (reproDrawsEx.combineMut i id).u := by
    intro i id
    norm_num [reproDrawsEx, default]
  exact ⟨hWF, hzr, hano, hdup, hdel, hu,
    C7_reproduce_amended genomeTwo reproDrawsEx hWF hzr hano hdup hdel hu⟩

/-- C7 is false as stated: the deletion coin of line 793 is drawn regardless
of the mutation rates, and when it fires (draw record `reproDrawsDel`,
`delU = 0 < 0.005`) `Genome.reproduce genomeTwo genomeTwo` drops a
chromosome, so the result has 1 chromosome instead of 2 and is not
value-equal to the zero-rate well-formed parent. -/
theorem C7_reproduce_counterexample :
    Genome.WF genomeTwo ∧ Genome.zeroRate genomeTwo ∧
    ¬ Genome.valEq (Genome.reproduce genomeTwo genomeTwo reproDrawsDel) genomeTwo := by
  refine ⟨by decide, by decide, ?_⟩
  have hres : Genome.reproduce genomeTwo genomeTwo reproDrawsDel
      = ⟨[⟨[("b", geneEx "b" (3/4) 0)]⟩]⟩ := by
    norm_num +decide [Genome.reproduce, reproDrawsDel, reproDrawsEx, genomeTwo, geneEx,
      Chromosome.combine, unionKeys, Chromosome.keys, getKey?, Gene.mutate,
      Chromosome.addGene, setKey, pyRandint, List.dedup_cons_of_mem,
      List.dedup_cons_of_not_mem, List.dedup_nil, reproduceExtra, applyTranslocation,
      applyInversion, applyFusion, pySamplePair, pySample, List.range_succ, List.range_zero]
  intro hvq
  rw [hres] at hvq
  have hlen := hvq.1
  simp [genomeTwo] at hlen

/-- C8: Phenotype derivation is deterministic.  The `Phenotype` constructor,
threaded through the ambient RNG stream, returns the same trait record for
any two stream states and leaves the stream untouched: no random draw
influences the result. -/
theorem C8_phenotype_deterministic (g : Genome) (r₁ r₂ : Rng) :
    (Phenotype.make g r₁).1 = (Phenotype.make g r₂).1 ∧ (Phenotype.make g r₁).2 = r₁ :=
  ⟨rfl, rfl⟩

/-! ## Claim C9 -/

/-- C9 (code bug): in the animal sexual-selection block, an omnivore's
mate-quality evaluation reads `mate.phenotype.metabolism_efficiency`
(src/main.py line 1626), an attribute `Phenotype.__init__` never defines
(the defined attribute is `metabolism_rate`), so the lookup raises
`AttributeError` for every mate — the computation always fails, while the
herbivore and carnivore variants always succeed. -/
theorem C9_omnivore_mate_quality_fails (mate : Organism) :
    mateQuality .OMNIVORE mate = none ∧
    (mateQuality .HERBIVORE mate).isSome = true ∧
    (mateQuality .CARNIVORE mate).isSome = true := by
  refine ⟨rfl, rfl, rfl⟩

/-! ## Claim C1 counterexample -/

set_option maxHeartbeats 1600000 in
/-- C1 is false as stated, and not only through the uncapped oxygen deposit
of `interact_with_environment` (line 1284).  `_initialize_cell_resources`
(lines 4797-4805) gives every cell of the generated world capacities of
order 0.1-2.6, far below the constant caps the update code uses.  On
`cellReal` — a cell with such capacities, all resources starting within
`[0, capacity]` — `add_decomposition` (CO2 capped at the constant 1.0,
line 3890) raises CO2 to 13/20 > capacity 3/20, one `WorldCell.update` tick
(respiration CO2 capped at the constant 1.0, line 3808) raises CO2 to
601/4000 > capacity 3/20, and a photosynthesising plant raises OXYGEN to
3/2 > capacity 1/2. -/
theorem C1_capacity_counterexample :
    resWithin cellReal [] ∧
    (cellReal.addDecomposition 5).resources .CO2 = 13/20 ∧
    (cellReal.addDecomposition 5).resource_capacity .CO2 = 3/20 ∧
    ((cellReal.update 1 [] ⟨1, 0⟩).1).resources .CO2 = 601/4000 ∧
    ((cellReal.update 1 [] ⟨1, 0⟩).1).resource_capacity .CO2 = 3/20 ∧
    ((plantEx.interactWithEnvironment (some cellReal) 1).2.map
      (fun x => x.resources .OXYGEN)) = some (3/2) ∧
    cellReal.resource_capacity .OXYGEN = 1/2 ∧
    ((13 : ℚ)/20 > 3/20 ∧ (601 : ℚ)/4000 > 3/20 ∧ (3 : ℚ)/2 > 1/2) := by
  refine ⟨?_, ?_, ?_, ?_, ?_, ?_, by norm_num [cellReal], by norm_num⟩
  · intro r
    cases r <;> exact ⟨by norm_num [cellReal], fun _ => by norm_num [cellReal]⟩
  · norm_num +decide [Cell.addDecomposition, cellReal, Cell.setResource, setRes]
  · norm_num +decide [Cell.addDecomposition, cellReal, Cell.setResource, setRes]
  · norm_num +decide [Cell.update, Cell.updateResource, Cell.diffuseResource, cellReal,
      Cell.setResource, setRes, diffusionRate, List.foldl_cons, List.foldl_nil]
  · norm_num +decide [Cell.update, Cell.updateResource, Cell.diffuseResource, cellReal,
      Cell.setResource, setRes, diffusionRate, List.foldl_cons, List.foldl_nil]
  · norm_num +decide [Organism.interactWithEnvironment, plantEx, orgEx, phenotypeEx,
      cellReal, Cell.setResource, setRes]

/-! ## Claim C2 counterexample -/

/-- C2 is false as stated: an attack subtracts damage from the victim's
health without clamping at zero (victim at health 1 ends at -9), and a
bacterial conjugation charges the donor 30% of a cost the donor's energy was
never checked against (donor at energy 1 with cost 10 ends at -2). -/
theorem C2_attack_negative_counterexample :
    ((Organism.attack attackerEx victimEx).2).health = -9 ∧
    ((Organism.bacterialConjugation (orgEx "a" "s" .UNICELLULAR genomeA 1)
      ({ orgEx "b" "s" .UNICELLULAR genomeA 1 with energy := 1 }) 10 0 conjDrawsEx).2.2).energy
      = -2 ∧ (-9 : ℚ) < 0 ∧ (-2 : ℚ) < 0 := by
  refine ⟨?_, ?_, by norm_num, by norm_num⟩
  · norm_num +decide [Organism.attack, attackerEx, victimEx, orgEx, phenotypeEx]
  · norm_num +decide [Organism.bacterialConjugation, orgEx, phenotypeEx, conjDrawsEx,
      genomeA, geneEx, Genome.mutate, Chromosome.mutate, Gene.mutate, List.enum,
      List.enumFrom, Chromosome.addGene, setKey, transferGenes, pyRandint]

/-! ## Claim C3 counterexample -/

/-- C3 is false as stated: when the dead sole member of species `X` is
decomposed and removed, `_remove_organism` skips the registry update for
dead organisms, so the record keeps population 1, stays non-extinct, and
`extinction_count` stays 0 — the claim expects population 0, extinct and a
counter increment. -/
theorem C3_dead_removal_counterexample :
    getKey? ((worldSoleDead.decomposeStep (deadOrg "x" "X") 0 1 none).1).species_registry "X"
      = some ⟨1, false⟩ ∧
    ((worldSoleDead.decomposeStep (deadOrg "x" "X") 0 1 none).1).extinction_count = 0 ∧
    ((worldSoleDead.decomposeStep (deadOrg "x" "X") 0 1 none).1).organisms = [] := by
  refine ⟨?_, ?_, ?_⟩ <;>
    norm_num +decide [WorldState.decomposeStep, WorldState.removeOrganism, worldSoleDead,
      deadOrg, orgEx, getKey?, setKey, List.find?, List.filter]

/-! ## Claim C4 counterexample -/

/-- C4 is false as stated: bacterial conjugation records both parents in
`parent_ids` but sets the offspring's generation to the recipient's
generation + 1, ignoring the donor: recipient generation 1 and donor
generation 5 yield offspring generation 2, not max(1,5)+1 = 6. -/
theorem C4_conjugation_generation_counterexample :
    ((Organism.bacterialConjugation (orgEx "a" "s" .UNICELLULAR genomeA 1)
      (orgEx "b" "s" .UNICELLULAR genomeA 5) 10 0 conjDrawsEx).1).generation = 2 ∧
    ((Organism.bacterialConjugation (orgEx "a" "s" .UNICELLULAR genomeA 1)
      (orgEx "b" "s" .UNICELLULAR genomeA 5) 10 0 conjDrawsEx).1).parent_ids = ["a", "b"] ∧
    (2 : ℕ) ≠ max 1 5 + 1 := by
  refine ⟨by decide, by decide, by decide⟩

/-! ## Claim C6 counterexample -/

set_option maxHeartbeats 800000 in
/-- C4 amended: sexual reproduction sets the offspring generation to
`max(parent1.generation, parent2.generation) + 1`; asexual division and
self-pollination, which have a single parent, set `parent.generation + 1`;
bacterial conjugation, although it records both parents in `parent_ids`,
sets `recipient.generation + 1` and ignores the donor's generation. -/
theorem C4_generation_amended (self mate : Organism) (rc mr : ℚ)
    (dc : ConjugationDraws) (da : AsexualDraws) (ds : SelfPollinationDraws)
    (dx : SexualDraws) :
    (Organism.bacterialConjugation self mate rc mr dc).1.generation = self.generation + 1 ∧
    (Organism.asexualReproduction self rc mr da).1.generation = self.generation + 1 ∧
    (Organism.selfPollination self rc mr ds).1.generation = self.generation + 1 ∧
    ((Organism.sexualReproduction self mate rc mr dx).1.map Organism.generation)
      = ((Organism.sexualReproduction self mate rc mr dx).1.map
          (fun _ => max self.generation mate.generation + 1)) := by
  refine ⟨?_, ?_, ?_, ?_⟩
  · simp only [Organism.bacterialConjugation, Organism.init]
  · simp only [Organism.asexualReproduction, Organism.init]
  · simp only [Organism.selfPollination]
    repeat' split
    all_goals simp [Organism.init]
  · refine Option.map_congr ?_
    intro a ha
    rw [Option.mem_def] at ha
    unfold Organism.sexualReproduction at ha
    split at ha
    · exact Option.noConfusion ha
    · lift_lets at ha
      extract_lets gSim cRisk rch2 iRisk sFert mFert fFact rch1 rch0 oGenA envMF adjMR gMut
        oGenB mutRes mutCnt div1 div2 avgDiv geoIso envPre genFac popFac spPrA nSpA spPrB
        nSpB dom1 dom2 hyb pCh moth oPos newGen wFac cPair selfC mateC baseCd relAge ageFac
        selfCdA cdPair selfCdB mateCdB selfF mateF at ha
      split at ha
      · exact Option.noConfusion ha
      · clear_value hyb
        split at ha
        · exact Option.noConfusion ha
        · rename_i b s
          lift_lets at ha
          extract_lets spId off2 off1 pA pB off0 at ha
          have hx : off0 = a := Option.some.inj ha
          rw [← hx]
          unfold off0
          split
          · rfl
          · rfl

/-- C6 is false as stated: with max_organisms = 2 and both resident
organisms dead, `add_organism` culls nothing (the cull only considers live
organisms) and appends, leaving 3 > 2 organisms in the world. -/
theorem C6_cap_exceeded_counterexample :
    (worldCapDead.addOrganism (orgEx "z" "Z" .HERBIVORE genomeA 1)).organisms.length = 3 ∧
    worldCapDead.max_organisms = 2 ∧ 3 > 2 := by
  refine ⟨?_, by norm_num [worldCapDead], by norm_num⟩
  norm_num +decide [WorldState.addOrganism, WorldState.cullWeakest, WorldState.removeOrganism,
    sortByAdaptation, insertByAdaptation, worldCapDead, deadOrg, orgEx, getKey?, setKey,
    List.find?, List.filter, List.foldr]

/-! ## Claim C5 -/

set_option maxHeartbeats 1600000 in
/-- C5 is false as stated: (a) the sexual path's speciation formula (lines
2599-2607) has different coefficients than the spec's formula — at
geographic_isolation = 1 and all other factors 0 the code yields 0.15 while
the spec's formula yields 0.25; and (b) for cross-species parents the +0.2
hybridization bonus is added after the [0, 0.8] clamp and the speciation
draw is retried unclamped: in the concrete run below the retry draw is 0.81
and speciation still fires (the offspring gets the fresh species id), so the
probability actually used for the draw exceeded 0.81 > 0.8. -/
theorem C5_speciation_probability_counterexample :
    sexualSpeciationProbability 0 0 0 1 0 0 ≠ specSpeciationProbability 0 1 0 0 0 ∧
    ((Organism.sexualReproduction (orgEx "a" "s1" .HERBIVORE genomeA 50)
      (orgEx "b" "s2" .HERBIVORE genomeB 50) 0 0 sexDrawsEx).1.map Organism.species_id)
      = some "fresh-species" ∧
    sexDrawsEx.hybridSpeciationU = 81/100 ∧ ((81 : ℚ)/100) > 8/10 := by
  refine ⟨?_, ?_, rfl, by norm_num⟩
  · norm_num [sexualSpeciationProbability, sexualSpeciationProbabilityRaw,
      specSpeciationProbability]
  · have hcat : categoryOf "g" = none := by decide
    have hsim : geneticSimilarity .HERBIVORE genomeA .HERBIVORE genomeB = 0 := by
      norm_num +decide [geneticSimilarity, similarityTally, Chromosome.unionWith, unionKeys,
        Chromosome.keys, getKey?, fundamentalGenes, genomeA, genomeB, geneEx,
        List.dedup_cons_of_mem, List.dedup_cons_of_not_mem, List.dedup_nil]
    have hrep : Genome.reproduce genomeA genomeB reproDrawsEx = genomeB := by
      norm_num +decide [Genome.reproduce, reproDrawsEx, genomeA, genomeB, geneEx,
        Chromosome.combine, unionKeys, Chromosome.keys, getKey?, Gene.mutate,
        Chromosome.addGene, setKey, pyRandint, List.dedup_cons_of_mem,
        List.dedup_cons_of_not_mem, List.dedup_nil, reproduceExtra, applyTranslocation,
        applyInversion, applyFusion, pySamplePair, pySample, List.range_succ, List.range_zero]
    have hcnt : countSignificantMutations genomeA .HERBIVORE genomeB = (1, 1) := by
      norm_num +decide [countSignificantMutations, mutTallyStep, hcat, categoryWeight,
        pyInt, genomeA, genomeB, geneEx, Chromosome.keys, getKey?, List.filter]
    have hdivA : geneticDiversityWithGenome genomeA genomeB = 1 := by
      norm_num +decide [geneticDiversityWithGenome, similarityTally, Chromosome.unionWith,
        unionKeys, Chromosome.keys, getKey?, fundamentalGenes, genomeA, genomeB, geneEx,
        List.dedup_cons_of_mem, List.dedup_cons_of_not_mem, List.dedup_nil]
    have hdivB : geneticDiversityWithGenome genomeB genomeB = 0 := by
      norm_num +decide [geneticDiversityWithGenome, similarityTally, Chromosome.unionWith,
        unionKeys, Chromosome.keys, getKey?, fundamentalGenes, genomeB, geneEx,
        List.dedup_cons_of_mem, List.dedup_cons_of_not_mem, List.dedup_nil]
    norm_num +decide [Organism.sexualReproduction, orgEx, phenotypeEx, sexDrawsEx, hsim,
      hrep, hcnt, hdivA, hdivB, sexualSpeciationProbability, sexualSpeciationProbabilityRaw,
      Organism.init]

/-- C5 amended: the sexual-path clamp keeps the base speciation probability
in [0, 0.8], and the hybridization retry probability (base + 0.2) lies in
[0, 1] — it is not re-clamped to 0.8. -/
theorem C5_speciation_probability_amended (avgDivergence : ℚ) (mutationCount : ℤ)
    (environmentalPressure geographicIsolation generationFactor populationFactor : ℚ) :
    0 ≤ sexualSpeciationProbability avgDivergence mutationCount environmentalPressure
      geographicIsolation generationFactor populationFactor ∧
    sexualSpeciationProbability avgDivergence mutationCount environmentalPressure
      geographicIsolation generationFactor populationFactor ≤ 8/10 ∧
    sexualSpeciationProbability avgDivergence mutationCount environmentalPressure
      geographicIsolation generationFactor populationFactor + 2/10 ≤ 1 := by
  unfold sexualSpeciationProbability
  refine ⟨le_min (by norm_num) (le_max_left 0 _), min_le_left _ _, ?_⟩
  have h := min_le_left (8/10 : ℚ) (max 0 (sexualSpeciationProbabilityRaw avgDivergence
    mutationCount environmentalPressure geographicIsolation generationFactor
    populationFactor))
  linarith

set_option maxHeartbeats 800000 in
/-- C10: frame property of the four reproduction paths. -/
theorem C10_parent_frame (self mate : Organism) (rc mr : ℚ)
    (dc : ConjugationDraws) (da : AsexualDraws) (ds : SelfPollinationDraws)
    (dx : SexualDraws) :
    parentFrame self (Organism.bacterialConjugation self mate rc mr dc).2.1 ∧
    parentFrame mate (Organism.bacterialConjugation self mate rc mr dc).2.2 ∧
    parentFrame self (Organism.asexualReproduction self rc mr da).2 ∧
    parentFrame self (Organism.selfPollination self rc mr ds).2 ∧
    parentFrame self (Organism.sexualReproduction self mate rc mr dx).2.1 ∧
    parentFrame mate (Organism.sexualReproduction self mate rc mr dx).2.2 := by
  refine ⟨rfl, rfl, rfl, rfl, ?_⟩
  rcases hr : Organism.sexualReproduction self mate rc mr dx with ⟨o, s2, m2⟩
  unfold Organism.sexualReproduction at hr
  split at hr
  · simp only [Prod.mk.injEq] at hr
    obtain ⟨h1, h2, h3⟩ := hr
    subst h2; subst h3
    exact ⟨rfl, rfl⟩
  · lift_lets at hr
    extract_lets gSim cRisk rch2 iRisk sFert mFert fFact rch1 rch0 oGenA envMF adjMR gMut
      oGenB mutRes mutCnt div1 div2 avgDiv geoIso envPre genFac popFac spPrA nSpA spPrB
      nSpB dom1 dom2 hyb pCh moth oPos newGen wFac cPair selfC mateC baseCd relAge ageFac
      selfCdA cdPair selfCdB mateCdB selfF mateF at hr
    split at hr
    · simp only [Prod.mk.injEq] at hr
      obtain ⟨h1, h2, h3⟩ := hr
      subst h2; subst h3
      exact ⟨rfl, rfl⟩
    · clear_value hyb
      split at hr
      · simp only [Prod.mk.injEq] at hr
        obtain ⟨h1, h2, h3⟩ := hr
        subst h2; subst h3
        exact ⟨rfl, rfl⟩
      · rename_i b s
        lift_lets at hr
        extract_lets spId off2 off1 pA pB off0 at hr
        simp only [Prod.mk.injEq] at hr
        obtain ⟨h1, h2, h3⟩ := hr
        subst h2; subst h3
        constructor
        · unfold parentFrame selfF selfC cPair
          repeat' split
          all_goals rfl
        · unfold parentFrame mateF mateC cPair
          repeat' split
          all_goals rfl

end BioEvolve
